import Mathlib

/-!
Verification development for the uniffi-zcash FFI binding layer.

The Rust sources are shallowly embedded as Lean functions over oracle
backends: the wrapped native library (zcash_client_sqlite and
zcash_client_backend) is modelled as a record of functions, and every
adapter method additionally returns the list of backend events it
performed, so that properties such as opening a fresh database handle
on every invocation become observable in the embedding.
-/

namespace UniffiZcash

/-- Mirror of the Rust Result type. -/
inductive RResult (α : Type) (ε : Type) where
  | ok (value : α)
  | err (error : ε)
deriving DecidableEq, Repr

namespace RResult

/-- Mirror of Rust Result::map. -/
def map {α β ε : Type} (f : α → β) : RResult α ε → RResult β ε
  | ok v => ok (f v)
  | err e => err e

/-- Mirror of Rust Result::map_err. -/
def mapErr {α ε δ : Type} (f : ε → δ) : RResult α ε → RResult α δ
  | ok v => ok v
  | err e => err (f e)

end RResult

/-- The FFI error enum: the variants observable in the embedded sources are
the message-carrying variant and the Unknown variant. -/
inductive ZcashError where
  | Message (error : String)
  | Unknown
deriving DecidableEq, Repr

/-- Whether an error is the message-carrying variant. -/
def ZcashError.isMessage : ZcashError → Bool
  | ZcashError.Message _ => true
  | ZcashError.Unknown => false

/-- The ZcashResult alias from the sources. -/
abbrev ZcashResult (α : Type) := RResult α ZcashError

/-- Result of running an adapter operation: either a Rust panic (from
expect or unwrap) or a returned ZcashResult value. -/
inductive Outcome (α : Type) where
  | panics (msg : String)
  | returns (r : ZcashResult α)
deriving DecidableEq, Repr

/-- Whether an outcome is a panic. -/
def Outcome.isPanic {α : Type} : Outcome α → Bool
  | Outcome.panics _ => true
  | Outcome.returns _ => false

/-- The consensus parameter enum exposed over the FFI; it also stands for
the consensus::Parameters argument of the underlying library, whose two
instances in this codebase are the main and the test network. -/
inductive ZcashConsensusParameters where
  | MainNetwork
  | TestNetwork
deriving DecidableEq, Repr

/-- The consensus::MAIN_NETWORK constant used by the spend and shield
wrappers. -/
def MAIN_NETWORK : ZcashConsensusParameters := ZcashConsensusParameters.MainNetwork

/-- The consensus::TEST_NETWORK constant used by the spend and shield
wrappers. -/
def TEST_NETWORK : ZcashConsensusParameters := ZcashConsensusParameters.TestNetwork

/- Underlying-library domain types.  Their internal structure is owned by
the wrapped library and irrelevant to the binding layer, so each is an
opaque-to-the-adapter value carrying a single datum. -/

/-- Handle to an opened underlying WalletDb. -/
abbrev DbHandle := Nat

/-- Handle to an opened underlying FsBlockDb. -/
abbrev FsDbHandle := Nat

/-- Underlying BlockHeight (a u32 newtype). -/
abbrev BlockHeight := Nat

/-- Debug rendering of the underlying SqliteClientError. -/
abbrev SqliteClientError := String

structure BlockMetadata where
  data : Nat
deriving DecidableEq, Repr

structure WalletSummary where
  data : Nat
deriving DecidableEq, Repr

structure AccountBirthday where
  data : Nat
deriving DecidableEq, Repr

/-- Underlying AccountId (a u32 newtype). -/
abbrev AccountId := Nat

structure UnifiedSpendingKey where
  data : Nat
deriving DecidableEq, Repr

structure CommitmentTreeRoot where
  data : Nat
deriving DecidableEq, Repr

structure Transaction where
  data : Nat
deriving DecidableEq, Repr

structure TxId where
  data : Nat
deriving DecidableEq, Repr

structure LocalTxProver where
  data : Nat
deriving DecidableEq, Repr

structure TransactionRequest where
  data : Nat
deriving DecidableEq, Repr

structure OvkPolicy where
  data : Nat
deriving DecidableEq, Repr

structure MemoBytes where
  data : Nat
deriving DecidableEq, Repr

structure TransparentAddress where
  data : Nat
deriving DecidableEq, Repr

structure NonNegativeAmount where
  data : Nat
deriving DecidableEq, Repr

structure BlockMeta where
  data : Nat
deriving DecidableEq, Repr

structure MainFixedGreedyInputSelector where
  data : Nat
deriving DecidableEq, Repr

structure TestFixedGreedyInputSelector where
  data : Nat
deriving DecidableEq, Repr

structure MainZip317GreedyInputSelector where
  data : Nat
deriving DecidableEq, Repr

structure TestZip317GreedyInputSelector where
  data : Nat
deriving DecidableEq, Repr

structure DiversifiableFullViewingKey where
  data : Nat
deriving DecidableEq, Repr

structure NoteId where
  data : Nat
deriving DecidableEq, Repr

structure ScanRange where
  data : Nat
deriving DecidableEq, Repr

structure BlockHash where
  data : Nat
deriving DecidableEq, Repr

structure UnifiedAddress where
  data : Nat
deriving DecidableEq, Repr

structure UnifiedFullViewingKey where
  data : Nat
deriving DecidableEq, Repr

structure ExtendedFullViewingKey where
  data : Nat
deriving DecidableEq, Repr

structure Memo where
  data : Nat
deriving DecidableEq, Repr

structure AddressMetadata where
  data : Nat
deriving DecidableEq, Repr

structure OutPoint where
  data : Nat
deriving DecidableEq, Repr

structure WalletTransparentOutput where
  data : Nat
deriving DecidableEq, Repr

structure Amount where
  data : Nat
deriving DecidableEq, Repr

structure DecryptedTransaction where
  data : Nat
deriving DecidableEq, Repr

/-- Underlying UtxoId (a tuple struct around an i64 row identifier). -/
structure UtxoId where
  idx : Int
deriving DecidableEq, Repr

/- Mirror types from the embedded sources.  Arc wrappers only express
cross-language reference counting and are dropped in the embedding. -/

/-- Mirror of the FFI ZcashBlockHeight (wraps a u32 height). -/
structure ZcashBlockHeight where
  value : Nat
deriving DecidableEq, Repr

/-- ZcashBlockHeight::new. -/
def ZcashBlockHeight.new (v : Nat) : ZcashBlockHeight := ZcashBlockHeight.mk v

/-- The From conversion from the underlying BlockHeight. -/
def ZcashBlockHeight.fromHeight (h : BlockHeight) : ZcashBlockHeight := ZcashBlockHeight.mk h

/-- The Into conversion to the underlying BlockHeight. -/
def ZcashBlockHeight.toHeight (z : ZcashBlockHeight) : BlockHeight := z.value

structure ZcashBlockMetadata where
  inner : BlockMetadata
deriving DecidableEq, Repr

structure ZcashWalletSummary where
  inner : WalletSummary
deriving DecidableEq, Repr

structure ZcashAccountBirthday where
  inner : AccountBirthday
deriving DecidableEq, Repr

/-- Mirror of the FFI ZcashAccountId record. -/
structure ZcashAccountId where
  id : Nat
deriving DecidableEq, Repr

structure ZcashUnifiedSpendingKey where
  inner : UnifiedSpendingKey
deriving DecidableEq, Repr

structure ZcashCommitmentTreeRoot where
  inner : CommitmentTreeRoot
deriving DecidableEq, Repr

structure ZcashTransaction where
  inner : Transaction
deriving DecidableEq, Repr

structure ZcashTxId where
  inner : TxId
deriving DecidableEq, Repr

structure ZcashLocalTxProver where
  inner : LocalTxProver
deriving DecidableEq, Repr

structure ZcashTransactionRequest where
  inner : TransactionRequest
deriving DecidableEq, Repr

structure ZcashOvkPolicy where
  inner : OvkPolicy
deriving DecidableEq, Repr

structure ZcashMemoBytes where
  inner : MemoBytes
deriving DecidableEq, Repr

structure ZcashTransparentAddress where
  inner : TransparentAddress
deriving DecidableEq, Repr

structure ZcashBlockMeta where
  inner : BlockMeta
deriving DecidableEq, Repr

structure ZcashMainFixedGreedyInputSelector where
  inner : MainFixedGreedyInputSelector
deriving DecidableEq, Repr

structure ZcashTestFixedGreedyInputSelector where
  inner : TestFixedGreedyInputSelector
deriving DecidableEq, Repr

structure ZcashMainZip317GreedyInputSelector where
  inner : MainZip317GreedyInputSelector
deriving DecidableEq, Repr

structure ZcashTestZip317GreedyInputSelector where
  inner : TestZip317GreedyInputSelector
deriving DecidableEq, Repr

structure ZcashScanRange where
  inner : ScanRange
deriving DecidableEq, Repr

structure ZcashBlockHash where
  inner : BlockHash
deriving DecidableEq, Repr

structure ZcashUnifiedAddress where
  inner : UnifiedAddress
deriving DecidableEq, Repr

structure ZcashUnifiedFullViewingKey where
  inner : UnifiedFullViewingKey
deriving DecidableEq, Repr

structure ZcashExtendedFullViewingKey where
  inner : ExtendedFullViewingKey
deriving DecidableEq, Repr

structure ZcashMemo where
  inner : Memo
deriving DecidableEq, Repr

structure ZcashAddressMetadata where
  inner : AddressMetadata
deriving DecidableEq, Repr

structure ZcashOutPoint where
  inner : OutPoint
deriving DecidableEq, Repr

structure ZcashWalletTransparentOutput where
  inner : WalletTransparentOutput
deriving DecidableEq, Repr

structure ZcashAmount where
  inner : Amount
deriving DecidableEq, Repr

structure ZcashDecryptedTransaction where
  inner : DecryptedTransaction
deriving DecidableEq, Repr

/-- Mirror of the FFI ZcashNoteId tuple struct (wraps a NoteId). -/
structure ZcashNoteId where
  inner : NoteId
deriving DecidableEq, Repr

/-- Mirror of the wallet database adapter: it stores only the path string
and the consensus parameters (struct ZcashWalletDb in the sources). -/
structure ZcashWalletDb where
  path : String
  params : ZcashConsensusParameters
deriving DecidableEq, Repr

/-- Mirror of the block metadata database adapter: it stores the FsBlockDb
value constructed at for_path, behind a mutex (only the handle is kept in
the embedding; lock acquisition is recorded as an event). -/
structure ZcashFsBlockDb where
  fs_block_db : FsDbHandle
deriving DecidableEq, Repr

/-- The tuple record returned by get_target_and_anchor_heights. -/
structure TupleMinAndMaxBlockHeight where
  min : ZcashBlockHeight
  max : ZcashBlockHeight
deriving DecidableEq, Repr

/-- The tuple record returned by create_account. -/
structure TupleAccountIdAndUnifiedSpendingKey where
  account_id : ZcashAccountId
  unified_spending_key : ZcashUnifiedSpendingKey
deriving DecidableEq, Repr

/-- The tuple record returned by get_max_height_hash. -/
structure TupleBlockHeightAndHash where
  block_height : ZcashBlockHeight
  block_hash : ZcashBlockHash
deriving DecidableEq, Repr

/-- Backend events recorded by the embedding: construction of underlying
database objects, invocations of underlying operations, and mutex
acquisition. -/
inductive DbEvent where
  | walletOpen (path : String) (params : ZcashConsensusParameters)
  | walletOp (name : String)
  | fsOpen (path : String)
  | fsLock
  | fsOp (name : String)
deriving DecidableEq, Repr

/-- Oracle model of the wrapped library operations reached from the
embedded sources.  for_path may fail (an inaccessible database path);
every other operation is a function of the handle returned by for_path
and of the forwarded arguments. -/
structure WalletBackend where
  for_path : String → ZcashConsensusParameters → RResult DbHandle String
  init_wallet_db : DbHandle → Option (List Nat) → RResult Unit String
  chain_height : DbHandle → RResult (Option BlockHeight) SqliteClientError
  block_metadata : DbHandle → BlockHeight → RResult (Option BlockMetadata) SqliteClientError
  block_fully_scanned : DbHandle → RResult (Option BlockMetadata) SqliteClientError
  block_max_scanned : DbHandle → RResult (Option BlockMetadata) SqliteClientError
  suggest_scan_ranges : DbHandle → RResult (List ScanRange) SqliteClientError
  get_target_and_anchor_heights :
    DbHandle → Nat → RResult (Option (BlockHeight × BlockHeight)) SqliteClientError
  get_min_unspent_height : DbHandle → RResult (Option BlockHeight) SqliteClientError
  get_block_hash : DbHandle → BlockHeight → RResult (Option BlockHash) SqliteClientError
  get_max_height_hash :
    DbHandle → RResult (Option (BlockHeight × BlockHash)) SqliteClientError
  get_tx_height : DbHandle → TxId → RResult (Option BlockHeight) SqliteClientError
  get_wallet_birthday : DbHandle → RResult (Option BlockHeight) SqliteClientError
  get_account_birthday : DbHandle → AccountId → RResult BlockHeight SqliteClientError
  get_current_address :
    DbHandle → AccountId → RResult (Option UnifiedAddress) SqliteClientError
  get_unified_full_viewing_keys :
    DbHandle → RResult (List (AccountId × UnifiedFullViewingKey)) SqliteClientError
  get_account_for_ufvk :
    DbHandle → UnifiedFullViewingKey → RResult (Option AccountId) SqliteClientError
  is_valid_account_extfvk :
    DbHandle → AccountId → ExtendedFullViewingKey → RResult Bool SqliteClientError
  get_wallet_summary : DbHandle → Nat → RResult (Option WalletSummary) SqliteClientError
  get_memo : DbHandle → NoteId → RResult (Option Memo) SqliteClientError
  get_transaction : DbHandle → TxId → RResult Transaction SqliteClientError
  get_transparent_receivers :
    DbHandle → AccountId →
      RResult (List (TransparentAddress × AddressMetadata)) SqliteClientError
  get_unspent_transparent_outputs :
    DbHandle → TransparentAddress → BlockHeight → List OutPoint →
      RResult (List WalletTransparentOutput) SqliteClientError
  get_transparent_balances :
    DbHandle → AccountId → BlockHeight →
      RResult (List (TransparentAddress × Amount)) SqliteClientError
  create_account :
    DbHandle → List Nat → AccountBirthday →
      RResult (AccountId × UnifiedSpendingKey) SqliteClientError
  get_next_available_address :
    DbHandle → AccountId → RResult (Option UnifiedAddress) SqliteClientError
  update_chain_tip : DbHandle → BlockHeight → RResult Unit SqliteClientError
  store_decrypted_tx : DbHandle → DecryptedTransaction → RResult Unit SqliteClientError
  truncate_to_height : DbHandle → BlockHeight → RResult Unit SqliteClientError
  put_received_transparent_utxo :
    DbHandle → WalletTransparentOutput → RResult UtxoId SqliteClientError
  put_sapling_subtree_roots : DbHandle → Nat → List CommitmentTreeRoot → RResult Unit String
  decrypt_and_store_transaction :
    ZcashConsensusParameters → DbHandle → Transaction → RResult Unit String
  spend_main_fixed :
    DbHandle → ZcashConsensusParameters → LocalTxProver → MainFixedGreedyInputSelector →
      UnifiedSpendingKey → TransactionRequest → OvkPolicy → Nat → RResult TxId String
  spend_test_fixed :
    DbHandle → ZcashConsensusParameters → LocalTxProver → TestFixedGreedyInputSelector →
      UnifiedSpendingKey → TransactionRequest → OvkPolicy → Nat → RResult TxId String
  spend_main_zip317 :
    DbHandle → ZcashConsensusParameters → LocalTxProver → MainZip317GreedyInputSelector →
      UnifiedSpendingKey → TransactionRequest → OvkPolicy → Nat → RResult TxId String
  spend_test_zip317 :
    DbHandle → ZcashConsensusParameters → LocalTxProver → TestZip317GreedyInputSelector →
      UnifiedSpendingKey → TransactionRequest → OvkPolicy → Nat → RResult TxId String
  shield_main_fixed :
    DbHandle → ZcashConsensusParameters → LocalTxProver → MainFixedGreedyInputSelector →
      NonNegativeAmount → UnifiedSpendingKey → List TransparentAddress → MemoBytes → Nat →
      RResult TxId String
  shield_test_fixed :
    DbHandle → ZcashConsensusParameters → LocalTxProver → TestFixedGreedyInputSelector →
      NonNegativeAmount → UnifiedSpendingKey → List TransparentAddress → MemoBytes → Nat →
      RResult TxId String
  shield_main_zip317 :
    DbHandle → ZcashConsensusParameters → LocalTxProver → MainZip317GreedyInputSelector →
      NonNegativeAmount → UnifiedSpendingKey → List TransparentAddress → MemoBytes → Nat →
      RResult TxId String
  shield_test_zip317 :
    DbHandle → ZcashConsensusParameters → LocalTxProver → TestZip317GreedyInputSelector →
      NonNegativeAmount → UnifiedSpendingKey → List TransparentAddress → MemoBytes → Nat →
      RResult TxId String
  nonneg_from_u64 : Nat → RResult NonNegativeAmount ZcashError

/-- Oracle model of the underlying FsBlockDb operations. -/
structure FsBackend where
  fs_for_path : String → RResult FsDbHandle String
  find_block : FsDbHandle → BlockHeight → RResult (Option BlockMeta) String
  get_max_cached_height : FsDbHandle → RResult (Option BlockHeight) String
  write_block_metadata : FsDbHandle → List BlockMeta → RResult Unit String

/-- The cast_err helper from the sources: formats a SqliteClientError into
the message-carrying FFI error. -/
def cast_err (e : SqliteClientError) : ZcashError :=
  ZcashError.Message ("Err: " ++ e)

/- ZcashWalletDb methods, transliterated from
src/lib/uniffi-zcash/src/zcash_client_sqlite/mod.rs.  Every database
method first runs WalletDb::for_path on the stored path and parameters
with expect, which panics on an open failure, then forwards to one
underlying operation and converts the result. -/

/-- ZcashWalletDb::for_path: builds the adapter value without touching the
backend (the source body is Ok(ZcashWalletDb pathparams)). -/
def ZcashWalletDb.for_path (path : String) (params : ZcashConsensusParameters) :
    Outcome ZcashWalletDb × List DbEvent :=
  (Outcome.returns (RResult.ok (ZcashWalletDb.mk path params)), [])

/-- ZcashWalletDb::init: opens the database with expect, wraps the seed and
forwards to wallet::init::init_wallet_db. -/
def ZcashWalletDb.init (B : WalletBackend) (self : ZcashWalletDb) (seed : List Nat) :
    Outcome Unit × List DbEvent :=
  match B.for_path self.path self.params with
  | RResult.err _ =>
      (Outcome.panics ("Cannot access the DB!"), [DbEvent.walletOpen self.path self.params])
  | RResult.ok db =>
      (Outcome.returns ((B.init_wallet_db db (some seed)).mapErr
        (fun e => ZcashError.Message ("Error while initializing data DB: " ++ e))),
       [DbEvent.walletOpen self.path self.params, DbEvent.walletOp ("init_wallet_db")])

/-- ZcashWalletDb::chain_height. -/
def ZcashWalletDb.chain_height (B : WalletBackend) (self : ZcashWalletDb) :
    Outcome (Option ZcashBlockHeight) × List DbEvent :=
  match B.for_path self.path self.params with
  | RResult.err _ =>
      (Outcome.panics ("Cannot access the DB!"), [DbEvent.walletOpen self.path self.params])
  | RResult.ok db =>
      (Outcome.returns (((B.chain_height db).map
          (fun x => x.map ZcashBlockHeight.fromHeight)).mapErr cast_err),
       [DbEvent.walletOpen self.path self.params, DbEvent.walletOp ("chain_height")])

/-- ZcashWalletDb::block_metadata. -/
def ZcashWalletDb.block_metadata (B : WalletBackend) (self : ZcashWalletDb)
    (height : ZcashBlockHeight) : Outcome (Option ZcashBlockMetadata) × List DbEvent :=
  match B.for_path self.path self.params with
  | RResult.err _ =>
      (Outcome.panics ("Cannot access the DB!"), [DbEvent.walletOpen self.path self.params])
  | RResult.ok db =>
      (Outcome.returns (((B.block_metadata db height.toHeight).map
          (fun x => x.map ZcashBlockMetadata.mk)).mapErr cast_err),
       [DbEvent.walletOpen self.path self.params, DbEvent.walletOp ("block_metadata")])

/-- ZcashWalletDb::block_fully_scanned. -/
def ZcashWalletDb.block_fully_scanned (B : WalletBackend) (self : ZcashWalletDb) :
    Outcome (Option ZcashBlockMetadata) × List DbEvent :=
  match B.for_path self.path self.params with
  | RResult.err _ =>
      (Outcome.panics ("Cannot access the DB!"), [DbEvent.walletOpen self.path self.params])
  | RResult.ok db =>
      (Outcome.returns (((B.block_fully_scanned db).map
          (fun x => x.map ZcashBlockMetadata.mk)).mapErr cast_err),
       [DbEvent.walletOpen self.path self.params,
        DbEvent.walletOp ("block_fully_scanned")])

/-- ZcashWalletDb::block_max_scanned. -/
def ZcashWalletDb.block_max_scanned (B : WalletBackend) (self : ZcashWalletDb) :
    Outcome (Option ZcashBlockMetadata) × List DbEvent :=
  match B.for_path self.path self.params with
  | RResult.err _ =>
      (Outcome.panics ("Cannot access the DB!"), [DbEvent.walletOpen self.path self.params])
  | RResult.ok db =>
      (Outcome.returns (((B.block_max_scanned db).map
          (fun x => x.map ZcashBlockMetadata.mk)).mapErr cast_err),
       [DbEvent.walletOpen self.path self.params, DbEvent.walletOp ("block_max_scanned")])

/-- ZcashWalletDb::suggest_scan_ranges: converts the returned vector of
scan ranges element-wise. -/
def ZcashWalletDb.suggest_scan_ranges (B : WalletBackend) (self : ZcashWalletDb) :
    Outcome (List ZcashScanRange) × List DbEvent :=
  match B.for_path self.path self.params with
  | RResult.err _ =>
      (Outcome.panics ("Cannot access the DB!"), [DbEvent.walletOpen self.path self.params])
  | RResult.ok db =>
      (Outcome.returns (((B.suggest_scan_ranges db).map
          (fun hs => hs.map ZcashScanRange.mk)).mapErr cast_err),
       [DbEvent.walletOpen self.path self.params,
        DbEvent.walletOp ("suggest_scan_ranges")])

/-- ZcashWalletDb::get_target_and_anchor_heights: converts
min_confirmations with NonZeroU32::new(..).unwrap() (panics at zero), then
opens the database and forwards; the error arm formats with Display. -/
def ZcashWalletDb.get_target_and_anchor_heights (B : WalletBackend)
    (self : ZcashWalletDb) (min_confirmations : Nat) :
    Outcome (Option TupleMinAndMaxBlockHeight) × List DbEvent :=
  match min_confirmations with
  | 0 => (Outcome.panics ("called Option::unwrap on a None value"), [])
  | Nat.succ n =>
    match B.for_path self.path self.params with
    | RResult.err _ =>
        (Outcome.panics ("Cannot access the DB!"), [DbEvent.walletOpen self.path self.params])
    | RResult.ok db =>
        (match B.get_target_and_anchor_heights db (Nat.succ n) with
         | RResult.ok none => Outcome.returns (RResult.ok none)
         | RResult.ok (some (bh1, bh2)) =>
             Outcome.returns (RResult.ok (some
               (TupleMinAndMaxBlockHeight.mk
                 (ZcashBlockHeight.fromHeight bh1) (ZcashBlockHeight.fromHeight bh2))))
         | RResult.err e => Outcome.returns (RResult.err (ZcashError.Message ("Err: " ++ e))),
         [DbEvent.walletOpen self.path self.params,
          DbEvent.walletOp ("get_target_and_anchor_heights")])

/-- ZcashWalletDb::get_min_unspent_height. -/
def ZcashWalletDb.get_min_unspent_height (B : WalletBackend) (self : ZcashWalletDb) :
    Outcome (Option ZcashBlockHeight) × List DbEvent :=
  match B.for_path self.path self.params with
  | RResult.err _ =>
      (Outcome.panics ("Cannot access the DB!"), [DbEvent.walletOpen self.path self.params])
  | RResult.ok db =>
      (Outcome.returns (((B.get_min_unspent_height db).map
          (fun x => x.map ZcashBlockHeight.fromHeight)).mapErr cast_err),
       [DbEvent.walletOpen self.path self.params,
        DbEvent.walletOp ("get_min_unspent_height")])

/-- ZcashWalletDb::get_block_hash. -/
def ZcashWalletDb.get_block_hash (B : WalletBackend) (self : ZcashWalletDb)
    (height : ZcashBlockHeight) : Outcome (Option ZcashBlockHash) × List DbEvent :=
  match B.for_path self.path self.params with
  | RResult.err _ =>
      (Outcome.panics ("Cannot access the DB!"), [DbEvent.walletOpen self.path self.params])
  | RResult.ok db =>
      (Outcome.returns (((B.get_block_hash db height.toHeight).map
          (fun x => x.map ZcashBlockHash.mk)).mapErr cast_err),
       [DbEvent.walletOpen self.path self.params, DbEvent.walletOp ("get_block_hash")])

/-- ZcashWalletDb::get_max_height_hash: converts the returned pair into
the boundary tuple record. -/
def ZcashWalletDb.get_max_height_hash (B : WalletBackend) (self : ZcashWalletDb) :
    Outcome (Option TupleBlockHeightAndHash) × List DbEvent :=
  match B.for_path self.path self.params with
  | RResult.err _ =>
      (Outcome.panics ("Cannot access the DB!"), [DbEvent.walletOpen self.path self.params])
  | RResult.ok db =>
      (Outcome.returns (((B.get_max_height_hash db).map
          (fun x => x.map (fun p => TupleBlockHeightAndHash.mk
            (ZcashBlockHeight.fromHeight p.1) (ZcashBlockHash.mk p.2)))).mapErr cast_err),
       [DbEvent.walletOpen self.path self.params,
        DbEvent.walletOp ("get_max_height_hash")])

/-- ZcashWalletDb::get_tx_height. -/
def ZcashWalletDb.get_tx_height (B : WalletBackend) (self : ZcashWalletDb)
    (txid : ZcashTxId) : Outcome (Option ZcashBlockHeight) × List DbEvent :=
  match B.for_path self.path self.params with
  | RResult.err _ =>
      (Outcome.panics ("Cannot access the DB!"), [DbEvent.walletOpen self.path self.params])
  | RResult.ok db =>
      (Outcome.returns (((B.get_tx_height db txid.inner).map
          (fun x => x.map ZcashBlockHeight.fromHeight)).mapErr cast_err),
       [DbEvent.walletOpen self.path self.params, DbEvent.walletOp ("get_tx_height")])

/-- ZcashWalletDb::get_wallet_birthday. -/
def ZcashWalletDb.get_wallet_birthday (B : WalletBackend) (self : ZcashWalletDb) :
    Outcome (Option ZcashBlockHeight) × List DbEvent :=
  match B.for_path self.path self.params with
  | RResult.err _ =>
      (Outcome.panics ("Cannot access the DB!"), [DbEvent.walletOpen self.path self.params])
  | RResult.ok db =>
      (Outcome.returns (((B.get_wallet_birthday db).map
          (fun x => x.map ZcashBlockHeight.fromHeight)).mapErr cast_err),
       [DbEvent.walletOpen self.path self.params,
        DbEvent.walletOp ("get_wallet_birthday")])

/-- ZcashWalletDb::get_account_birthday. -/
def ZcashWalletDb.get_account_birthday (B : WalletBackend) (self : ZcashWalletDb)
    (account : ZcashAccountId) : Outcome ZcashBlockHeight × List DbEvent :=
  match B.for_path self.path self.params with
  | RResult.err _ =>
      (Outcome.panics ("Cannot access the DB!"), [DbEvent.walletOpen self.path self.params])
  | RResult.ok db =>
      (Outcome.returns (((B.get_account_birthday db account.id).map
          ZcashBlockHeight.fromHeight).mapErr cast_err),
       [DbEvent.walletOpen self.path self.params,
        DbEvent.walletOp ("get_account_birthday")])

/-- ZcashWalletDb::get_current_address. -/
def ZcashWalletDb.get_current_address (B : WalletBackend) (self : ZcashWalletDb)
    (aid : ZcashAccountId) : Outcome (Option ZcashUnifiedAddress) × List DbEvent :=
  match B.for_path self.path self.params with
  | RResult.err _ =>
      (Outcome.panics ("Cannot access the DB!"), [DbEvent.walletOpen self.path self.params])
  | RResult.ok db =>
      (Outcome.returns (((B.get_current_address db aid.id).map
          (fun x => x.map ZcashUnifiedAddress.mk)).mapErr cast_err),
       [DbEvent.walletOpen self.path self.params,
        DbEvent.walletOp ("get_current_address")])

/-- ZcashWalletDb::get_unified_full_viewing_keys: converts the returned
map entry-wise into mirror keys. -/
def ZcashWalletDb.get_unified_full_viewing_keys (B : WalletBackend)
    (self : ZcashWalletDb) :
    Outcome (List (ZcashAccountId × ZcashUnifiedFullViewingKey)) × List DbEvent :=
  match B.for_path self.path self.params with
  | RResult.err _ =>
      (Outcome.panics ("Cannot access the DB!"), [DbEvent.walletOpen self.path self.params])
  | RResult.ok db =>
      (Outcome.returns (((B.get_unified_full_viewing_keys db).map
          (fun hm => hm.map (fun p =>
            (ZcashAccountId.mk p.1, ZcashUnifiedFullViewingKey.mk p.2)))).mapErr cast_err),
       [DbEvent.walletOpen self.path self.params,
        DbEvent.walletOp ("get_unified_full_viewing_keys")])

/-- ZcashWalletDb::get_account_for_ufvk. -/
def ZcashWalletDb.get_account_for_ufvk (B : WalletBackend) (self : ZcashWalletDb)
    (zufvk : ZcashUnifiedFullViewingKey) : Outcome (Option ZcashAccountId) × List DbEvent :=
  match B.for_path self.path self.params with
  | RResult.err _ =>
      (Outcome.panics ("Cannot access the DB!"), [DbEvent.walletOpen self.path self.params])
  | RResult.ok db =>
      (Outcome.returns (((B.get_account_for_ufvk db zufvk.inner).map
          (fun x => x.map ZcashAccountId.mk)).mapErr cast_err),
       [DbEvent.walletOpen self.path self.params,
        DbEvent.walletOp ("get_account_for_ufvk")])

/-- ZcashWalletDb::is_valid_account_extfvk. -/
def ZcashWalletDb.is_valid_account_extfvk (B : WalletBackend) (self : ZcashWalletDb)
    (account : ZcashAccountId) (extfvk : ZcashExtendedFullViewingKey) :
    Outcome Bool × List DbEvent :=
  match B.for_path self.path self.params with
  | RResult.err _ =>
      (Outcome.panics ("Cannot access the DB!"), [DbEvent.walletOpen self.path self.params])
  | RResult.ok db =>
      (Outcome.returns ((B.is_valid_account_extfvk db account.id extfvk.inner).mapErr
        cast_err),
       [DbEvent.walletOpen self.path self.params,
        DbEvent.walletOp ("is_valid_account_extfvk")])

/-- ZcashWalletDb::get_wallet_summary: the min_confirmations u32 is passed
through to the underlying operation without any NonZeroU32 conversion. -/
def ZcashWalletDb.get_wallet_summary (B : WalletBackend) (self : ZcashWalletDb)
    (min_confirmations : Nat) : Outcome (Option ZcashWalletSummary) × List DbEvent :=
  match B.for_path self.path self.params with
  | RResult.err _ =>
      (Outcome.panics ("Cannot access the DB!"), [DbEvent.walletOpen self.path self.params])
  | RResult.ok db =>
      (Outcome.returns (((B.get_wallet_summary db min_confirmations).map
          (fun x => x.map ZcashWalletSummary.mk)).mapErr cast_err),
       [DbEvent.walletOpen self.path self.params, DbEvent.walletOp ("get_wallet_summary")])

/-- ZcashWalletDb::get_memo: forwards to the underlying get_memo and then
unwraps the optional memo inside the Ok arm (map of memo.unwrap), so a
successfully returned None memo panics. -/
def ZcashWalletDb.get_memo (B : WalletBackend) (self : ZcashWalletDb)
    (id_note : ZcashNoteId) : Outcome ZcashMemo × List DbEvent :=
  match B.for_path self.path self.params with
  | RResult.err _ =>
      (Outcome.panics ("Cannot access the DB!"), [DbEvent.walletOpen self.path self.params])
  | RResult.ok db =>
      (match B.get_memo db id_note.inner with
       | RResult.ok none => Outcome.panics ("called Option::unwrap on a None value")
       | RResult.ok (some m) => Outcome.returns (RResult.ok (ZcashMemo.mk m))
       | RResult.err e => Outcome.returns (RResult.err (cast_err e)),
       [DbEvent.walletOpen self.path self.params, DbEvent.walletOp ("get_memo")])

/-- ZcashWalletDb::get_transaction. -/
def ZcashWalletDb.get_transaction (B : WalletBackend) (self : ZcashWalletDb)
    (txid : ZcashTxId) : Outcome ZcashTransaction × List DbEvent :=
  match B.for_path self.path self.params with
  | RResult.err _ =>
      (Outcome.panics ("Cannot access the DB!"), [DbEvent.walletOpen self.path self.params])
  | RResult.ok db =>
      (Outcome.returns (((B.get_transaction db txid.inner).map
          ZcashTransaction.mk).mapErr cast_err),
       [DbEvent.walletOpen self.path self.params, DbEvent.walletOp ("get_transaction")])

/-- ZcashWalletDb::get_transparent_receivers: converts the returned map
entry-wise. -/
def ZcashWalletDb.get_transparent_receivers (B : WalletBackend) (self : ZcashWalletDb)
    (aid : ZcashAccountId) :
    Outcome (List (ZcashTransparentAddress × ZcashAddressMetadata)) × List DbEvent :=
  match B.for_path self.path self.params with
  | RResult.err _ =>
      (Outcome.panics ("Cannot access the DB!"), [DbEvent.walletOpen self.path self.params])
  | RResult.ok db =>
      (Outcome.returns (((B.get_transparent_receivers db aid.id).map
          (fun hm => hm.map (fun p =>
            (ZcashTransparentAddress.mk p.1, ZcashAddressMetadata.mk p.2)))).mapErr
          cast_err),
       [DbEvent.walletOpen self.path self.params,
        DbEvent.walletOp ("get_transparent_receivers")])

/-- ZcashWalletDb::get_unspent_transparent_outputs: converts the outpoint
arguments and the returned outputs element-wise. -/
def ZcashWalletDb.get_unspent_transparent_outputs (B : WalletBackend)
    (self : ZcashWalletDb) (zta : ZcashTransparentAddress) (zbh : ZcashBlockHeight)
    (zop : List ZcashOutPoint) :
    Outcome (List ZcashWalletTransparentOutput) × List DbEvent :=
  let zop_arr := zop.map (fun x => x.inner)
  match B.for_path self.path self.params with
  | RResult.err _ =>
      (Outcome.panics ("Cannot access the DB!"), [DbEvent.walletOpen self.path self.params])
  | RResult.ok db =>
      (Outcome.returns
        (((B.get_unspent_transparent_outputs db zta.inner zbh.toHeight zop_arr).map
          (fun wtos => wtos.map ZcashWalletTransparentOutput.mk)).mapErr cast_err),
       [DbEvent.walletOpen self.path self.params,
        DbEvent.walletOp ("get_unspent_transparent_outputs")])

/-- ZcashWalletDb::get_transparent_balances: converts the returned map
entry-wise. -/
def ZcashWalletDb.get_transparent_balances (B : WalletBackend) (self : ZcashWalletDb)
    (account : ZcashAccountId) (max_height : ZcashBlockHeight) :
    Outcome (List (ZcashTransparentAddress × ZcashAmount)) × List DbEvent :=
  match B.for_path self.path self.params with
  | RResult.err _ =>
      (Outcome.panics ("Cannot access the DB!"), [DbEvent.walletOpen self.path self.params])
  | RResult.ok db =>
      (Outcome.returns (((B.get_transparent_balances db account.id
          max_height.toHeight).map
          (fun hm => hm.map (fun p =>
            (ZcashTransparentAddress.mk p.1, ZcashAmount.mk p.2)))).mapErr cast_err),
       [DbEvent.walletOpen self.path self.params,
        DbEvent.walletOp ("get_transparent_balances")])

/-- ZcashWalletDb::create_account. -/
def ZcashWalletDb.create_account (B : WalletBackend) (self : ZcashWalletDb)
    (seed : List Nat) (birthday : ZcashAccountBirthday) :
    Outcome TupleAccountIdAndUnifiedSpendingKey × List DbEvent :=
  match B.for_path self.path self.params with
  | RResult.err _ =>
      (Outcome.panics ("Cannot access the DB!"), [DbEvent.walletOpen self.path self.params])
  | RResult.ok db =>
      (Outcome.returns (((B.create_account db seed birthday.inner).map
          (fun p => TupleAccountIdAndUnifiedSpendingKey.mk
            (ZcashAccountId.mk p.1) (ZcashUnifiedSpendingKey.mk p.2))).mapErr cast_err),
       [DbEvent.walletOpen self.path self.params, DbEvent.walletOp ("create_account")])

/-- ZcashWalletDb::get_next_available_address. -/
def ZcashWalletDb.get_next_available_address (B : WalletBackend) (self : ZcashWalletDb)
    (account : ZcashAccountId) : Outcome (Option ZcashUnifiedAddress) × List DbEvent :=
  match B.for_path self.path self.params with
  | RResult.err _ =>
      (Outcome.panics ("Cannot access the DB!"), [DbEvent.walletOpen self.path self.params])
  | RResult.ok db =>
      (Outcome.returns (((B.get_next_available_address db account.id).map
          (fun x => x.map ZcashUnifiedAddress.mk)).mapErr cast_err),
       [DbEvent.walletOpen self.path self.params,
        DbEvent.walletOp ("get_next_available_address")])

/-- ZcashWalletDb::update_chain_tip. -/
def ZcashWalletDb.update_chain_tip (B : WalletBackend) (self : ZcashWalletDb)
    (tip_height : Nat) : Outcome Unit × List DbEvent :=
  let zheight := (ZcashBlockHeight.new tip_height).toHeight
  match B.for_path self.path self.params with
  | RResult.err _ =>
      (Outcome.panics ("Cannot access the DB!"), [DbEvent.walletOpen self.path self.params])
  | RResult.ok db =>
      (Outcome.returns ((B.update_chain_tip db zheight).mapErr cast_err),
       [DbEvent.walletOpen self.path self.params, DbEvent.walletOp ("update_chain_tip")])

/-- ZcashWalletDb::store_decrypted_tx. -/
def ZcashWalletDb.store_decrypted_tx (B : WalletBackend) (self : ZcashWalletDb)
    (d_tx : ZcashDecryptedTransaction) : Outcome Unit × List DbEvent :=
  match B.for_path self.path self.params with
  | RResult.err _ =>
      (Outcome.panics ("Cannot access the DB!"), [DbEvent.walletOpen self.path self.params])
  | RResult.ok db =>
      (Outcome.returns ((B.store_decrypted_tx db d_tx.inner).mapErr cast_err),
       [DbEvent.walletOpen self.path self.params,
        DbEvent.walletOp ("store_decrypted_tx")])

/-- ZcashWalletDb::truncate_to_height. -/
def ZcashWalletDb.truncate_to_height (B : WalletBackend) (self : ZcashWalletDb)
    (block_height : Nat) : Outcome Unit × List DbEvent :=
  let zheight := (ZcashBlockHeight.new block_height).toHeight
  match B.for_path self.path self.params with
  | RResult.err _ =>
      (Outcome.panics ("Cannot access the DB!"), [DbEvent.walletOpen self.path self.params])
  | RResult.ok db =>
      (Outcome.returns ((B.truncate_to_height db zheight).mapErr cast_err),
       [DbEvent.walletOpen self.path self.params, DbEvent.walletOp ("truncate_to_height")])

/-- ZcashWalletDb::put_received_transparent_utxo: forwards the inner
output value and projects the i64 out of the returned UtxoId. -/
def ZcashWalletDb.put_received_transparent_utxo (B : WalletBackend)
    (self : ZcashWalletDb) (output : ZcashWalletTransparentOutput) :
    Outcome Int × List DbEvent :=
  match B.for_path self.path self.params with
  | RResult.err _ =>
      (Outcome.panics ("Cannot access the DB!"), [DbEvent.walletOpen self.path self.params])
  | RResult.ok db =>
      (Outcome.returns (((B.put_received_transparent_utxo db output.inner).map
          (fun x => x.idx)).mapErr cast_err),
       [DbEvent.walletOpen self.path self.params,
        DbEvent.walletOp ("put_received_transparent_utxo")])

/-- ZcashWalletDb::put_sapling_subtree_roots: converts the mirror roots and
forwards; the error arm formats a ShardTreeError into the message
variant. -/
def ZcashWalletDb.put_sapling_subtree_roots (B : WalletBackend) (self : ZcashWalletDb)
    (start_index : Nat) (roots : List ZcashCommitmentTreeRoot) :
    Outcome Unit × List DbEvent :=
  let roots_arr := roots.map (fun x => x.inner)
  match B.for_path self.path self.params with
  | RResult.err _ =>
      (Outcome.panics ("Cannot access the DB!"), [DbEvent.walletOpen self.path self.params])
  | RResult.ok db =>
      (Outcome.returns ((B.put_sapling_subtree_roots db start_index roots_arr).mapErr
        (fun e => ZcashError.Message ("ShardTreeError: " ++ e))),
       [DbEvent.walletOpen self.path self.params,
        DbEvent.walletOp ("put_sapling_subtree_roots")])

/- ZcashFsBlockDb methods, transliterated from the same module: the
underlying FsBlockDb is constructed once at for_path (with unwrap) and
kept behind a mutex; each method locks the mutex and uses the stored
value. -/

/-- ZcashFsBlockDb::for_path: constructs the underlying FsBlockDb with
unwrap and stores it. -/
def ZcashFsBlockDb.for_path (FB : FsBackend) (fsblockdb_root : String) :
    Outcome ZcashFsBlockDb × List DbEvent :=
  match FB.fs_for_path fsblockdb_root with
  | RResult.err _ =>
      (Outcome.panics ("called Result::unwrap on an Err value"),
       [DbEvent.fsOpen fsblockdb_root])
  | RResult.ok h =>
      (Outcome.returns (RResult.ok (ZcashFsBlockDb.mk h)), [DbEvent.fsOpen fsblockdb_root])

/-- ZcashFsBlockDb::find_block: locks the mutex and forwards to the stored
FsBlockDb value. -/
def ZcashFsBlockDb.find_block (FB : FsBackend) (self : ZcashFsBlockDb)
    (height : ZcashBlockHeight) : Outcome (Option ZcashBlockMeta) × List DbEvent :=
  (match FB.find_block self.fs_block_db height.toHeight with
   | RResult.ok opt => Outcome.returns (RResult.ok (opt.map ZcashBlockMeta.mk))
   | RResult.err e =>
       Outcome.returns (RResult.err (ZcashError.Message ("FsBlockDbError: " ++ e))),
   [DbEvent.fsLock, DbEvent.fsOp ("find_block")])

/-- ZcashFsBlockDb::get_max_cached_height. -/
def ZcashFsBlockDb.get_max_cached_height (FB : FsBackend) (self : ZcashFsBlockDb) :
    Outcome (Option ZcashBlockHeight) × List DbEvent :=
  (match FB.get_max_cached_height self.fs_block_db with
   | RResult.ok opt => Outcome.returns (RResult.ok (opt.map ZcashBlockHeight.fromHeight))
   | RResult.err e =>
       Outcome.returns (RResult.err (ZcashError.Message ("FsBlockDbError: " ++ e))),
   [DbEvent.fsLock, DbEvent.fsOp ("get_max_cached_height")])

/-- ZcashFsBlockDb::write_block_metadata. -/
def ZcashFsBlockDb.write_block_metadata (FB : FsBackend) (self : ZcashFsBlockDb)
    (block_meta : List ZcashBlockMeta) : Outcome Unit × List DbEvent :=
  let vec := block_meta.map (fun x => x.inner)
  ((FB.write_block_metadata self.fs_block_db vec).map (fun _ => ()) |>.mapErr
      (fun e => ZcashError.Message ("FsBlockDbError: " ++ e)) |> Outcome.returns,
   [DbEvent.fsLock, DbEvent.fsOp ("write_block_metadata")])

/- Free functions from
src/lib/uniffi-zcash/src/zcash_client_backend/data_api/wallet/default.rs. -/

/-- decrypt_and_store_transaction: opens the wallet database at the path
stored in the adapter, under the params argument, with unwrap, then
forwards to wallet::decrypt_and_store_transaction. -/
def decrypt_and_store_transaction (B : WalletBackend)
    (params : ZcashConsensusParameters) (z_db_data : ZcashWalletDb)
    (tx : ZcashTransaction) : Outcome Unit × List DbEvent :=
  match B.for_path z_db_data.path params with
  | RResult.err _ =>
      (Outcome.panics ("called Result::unwrap on an Err value"),
       [DbEvent.walletOpen z_db_data.path params])
  | RResult.ok db =>
      (Outcome.returns ((B.decrypt_and_store_transaction params db tx.inner).mapErr
        (fun e => ZcashError.Message ("decrypt and store transaction error: " ++ e))),
       [DbEvent.walletOpen z_db_data.path params,
        DbEvent.walletOp ("decrypt_and_store_transaction")])

/-- spend_main_fixed: converts min_confirmations with
NonZeroU32::new(..).unwrap(), opens the wallet database under the
hardcoded MAIN_NETWORK with expect, and forwards to wallet::spend with the
params argument passed through unchanged. -/
def spend_main_fixed (B : WalletBackend) (z_db_data : ZcashWalletDb)
    (params : ZcashConsensusParameters) (prover : ZcashLocalTxProver)
    (input_selector : ZcashMainFixedGreedyInputSelector) (usk : ZcashUnifiedSpendingKey)
    (request : ZcashTransactionRequest) (ovk_policy : ZcashOvkPolicy)
    (min_confirmations : Nat) : Outcome ZcashTxId × List DbEvent :=
  match min_confirmations with
  | 0 => (Outcome.panics ("called Option::unwrap on a None value"), [])
  | Nat.succ n =>
    match B.for_path z_db_data.path MAIN_NETWORK with
    | RResult.err _ =>
        (Outcome.panics ("Cannot unwrap db_data!"),
         [DbEvent.walletOpen z_db_data.path MAIN_NETWORK])
    | RResult.ok db =>
        (Outcome.returns (((B.spend_main_fixed db params prover.inner input_selector.inner
            usk.inner request.inner ovk_policy.inner (Nat.succ n)).map
            ZcashTxId.mk).mapErr
            (fun e => ZcashError.Message ("spending error (spend_main): " ++ e))),
         [DbEvent.walletOpen z_db_data.path MAIN_NETWORK, DbEvent.walletOp ("spend")])

/-- spend_test_fixed: as spend_main_fixed but the database is opened under
the hardcoded TEST_NETWORK. -/
def spend_test_fixed (B : WalletBackend) (z_db_data : ZcashWalletDb)
    (params : ZcashConsensusParameters) (prover : ZcashLocalTxProver)
    (input_selector : ZcashTestFixedGreedyInputSelector) (usk : ZcashUnifiedSpendingKey)
    (request : ZcashTransactionRequest) (ovk_policy : ZcashOvkPolicy)
    (min_confirmations : Nat) : Outcome ZcashTxId × List DbEvent :=
  match min_confirmations with
  | 0 => (Outcome.panics ("called Option::unwrap on a None value"), [])
  | Nat.succ n =>
    match B.for_path z_db_data.path TEST_NETWORK with
    | RResult.err _ =>
        (Outcome.panics ("Cannot unwrap db_data!"),
         [DbEvent.walletOpen z_db_data.path TEST_NETWORK])
    | RResult.ok db =>
        (Outcome.returns (((B.spend_test_fixed db params prover.inner input_selector.inner
            usk.inner request.inner ovk_policy.inner (Nat.succ n)).map
            ZcashTxId.mk).mapErr
            (fun e => ZcashError.Message ("spending error (spend test): " ++ e))),
         [DbEvent.walletOpen z_db_data.path TEST_NETWORK, DbEvent.walletOp ("spend")])

/-- spend_main_zip317: as spend_main_fixed with the zip317 input
selector. -/
def spend_main_zip317 (B : WalletBackend) (z_db_data : ZcashWalletDb)
    (params : ZcashConsensusParameters) (prover : ZcashLocalTxProver)
    (input_selector : ZcashMainZip317GreedyInputSelector) (usk : ZcashUnifiedSpendingKey)
    (request : ZcashTransactionRequest) (ovk_policy : ZcashOvkPolicy)
    (min_confirmations : Nat) : Outcome ZcashTxId × List DbEvent :=
  match min_confirmations with
  | 0 => (Outcome.panics ("called Option::unwrap on a None value"), [])
  | Nat.succ n =>
    match B.for_path z_db_data.path MAIN_NETWORK with
    | RResult.err _ =>
        (Outcome.panics ("Cannot unwrap db_data!"),
         [DbEvent.walletOpen z_db_data.path MAIN_NETWORK])
    | RResult.ok db =>
        (Outcome.returns (((B.spend_main_zip317 db params prover.inner input_selector.inner
            usk.inner request.inner ovk_policy.inner (Nat.succ n)).map
            ZcashTxId.mk).mapErr
            (fun e => ZcashError.Message ("spending error (spend_main): " ++ e))),
         [DbEvent.walletOpen z_db_data.path MAIN_NETWORK, DbEvent.walletOp ("spend")])

/-- spend_test_zip317: as spend_test_fixed with the zip317 input
selector. -/
def spend_test_zip317 (B : WalletBackend) (z_db_data : ZcashWalletDb)
    (params : ZcashConsensusParameters) (prover : ZcashLocalTxProver)
    (input_selector : ZcashTestZip317GreedyInputSelector) (usk : ZcashUnifiedSpendingKey)
    (request : ZcashTransactionRequest) (ovk_policy : ZcashOvkPolicy)
    (min_confirmations : Nat) : Outcome ZcashTxId × List DbEvent :=
  match min_confirmations with
  | 0 => (Outcome.panics ("called Option::unwrap on a None value"), [])
  | Nat.succ n =>
    match B.for_path z_db_data.path TEST_NETWORK with
    | RResult.err _ =>
        (Outcome.panics ("Cannot unwrap db_data!"),
         [DbEvent.walletOpen z_db_data.path TEST_NETWORK])
    | RResult.ok db =>
        (Outcome.returns (((B.spend_test_zip317 db params prover.inner input_selector.inner
            usk.inner request.inner ovk_policy.inner (Nat.succ n)).map
            ZcashTxId.mk).mapErr
            (fun e => ZcashError.Message ("spending error (spend test): " ++ e))),
         [DbEvent.walletOpen z_db_data.path TEST_NETWORK, DbEvent.walletOp ("spend")])

/-- shield_transparent_funds_main_fixed: converts min_confirmations with
NonZeroU32::new(..).unwrap(), converts the threshold with
ZcashNonNegativeAmount::from_u64(..).unwrap(), opens the wallet database
under the hardcoded MAIN_NETWORK with unwrap, and forwards to
wallet::shield_transparent_funds with the params argument passed through
unchanged. -/
def shield_transparent_funds_main_fixed (B : WalletBackend) (z_db_data : ZcashWalletDb)
    (params : ZcashConsensusParameters) (prover : ZcashLocalTxProver)
    (input_selector : ZcashMainFixedGreedyInputSelector) (shielding_threshold : Nat)
    (usk : ZcashUnifiedSpendingKey) (from_addrs : List ZcashTransparentAddress)
    (memo : ZcashMemoBytes) (min_confirmations : Nat) : Outcome ZcashTxId × List DbEvent :=
  match min_confirmations with
  | 0 => (Outcome.panics ("called Option::unwrap on a None value"), [])
  | Nat.succ n =>
    match B.nonneg_from_u64 shielding_threshold with
    | RResult.err _ => (Outcome.panics ("called Result::unwrap on an Err value"), [])
    | RResult.ok threshold =>
      let addresses := from_addrs.map (fun x => x.inner)
      match B.for_path z_db_data.path MAIN_NETWORK with
      | RResult.err _ =>
          (Outcome.panics ("called Result::unwrap on an Err value"),
           [DbEvent.walletOpen z_db_data.path MAIN_NETWORK])
      | RResult.ok db =>
          (Outcome.returns (((B.shield_main_fixed db params prover.inner
              input_selector.inner threshold usk.inner addresses memo.inner
              (Nat.succ n)).map ZcashTxId.mk).mapErr
              (fun e => ZcashError.Message ("spending error: " ++ e))),
           [DbEvent.walletOpen z_db_data.path MAIN_NETWORK,
            DbEvent.walletOp ("shield_transparent_funds")])

/-- shield_transparent_funds_test_fixed: as the main variant but the
database is opened under the hardcoded TEST_NETWORK. -/
def shield_transparent_funds_test_fixed (B : WalletBackend) (z_db_data : ZcashWalletDb)
    (params : ZcashConsensusParameters) (prover : ZcashLocalTxProver)
    (input_selector : ZcashTestFixedGreedyInputSelector) (shielding_threshold : Nat)
    (usk : ZcashUnifiedSpendingKey) (from_addrs : List ZcashTransparentAddress)
    (memo : ZcashMemoBytes) (min_confirmations : Nat) : Outcome ZcashTxId × List DbEvent :=
  match min_confirmations with
  | 0 => (Outcome.panics ("called Option::unwrap on a None value"), [])
  | Nat.succ n =>
    match B.nonneg_from_u64 shielding_threshold with
    | RResult.err _ => (Outcome.panics ("called Result::unwrap on an Err value"), [])
    | RResult.ok threshold =>
      let addresses := from_addrs.map (fun x => x.inner)
      match B.for_path z_db_data.path TEST_NETWORK with
      | RResult.err _ =>
          (Outcome.panics ("called Result::unwrap on an Err value"),
           [DbEvent.walletOpen z_db_data.path TEST_NETWORK])
      | RResult.ok db =>
          (Outcome.returns (((B.shield_test_fixed db params prover.inner
              input_selector.inner threshold usk.inner addresses memo.inner
              (Nat.succ n)).map ZcashTxId.mk).mapErr
              (fun e => ZcashError.Message ("spending error: " ++ e))),
           [DbEvent.walletOpen z_db_data.path TEST_NETWORK,
            DbEvent.walletOp ("shield_transparent_funds")])

/-- shield_transparent_funds_main_zip317: as the main fixed variant with
the zip317 input selector. -/
def shield_transparent_funds_main_zip317 (B : WalletBackend) (z_db_data : ZcashWalletDb)
    (params : ZcashConsensusParameters) (prover : ZcashLocalTxProver)
    (input_selector : ZcashMainZip317GreedyInputSelector) (shielding_threshold : Nat)
    (usk : ZcashUnifiedSpendingKey) (from_addrs : List ZcashTransparentAddress)
    (memo : ZcashMemoBytes) (min_confirmations : Nat) : Outcome ZcashTxId × List DbEvent :=
  match min_confirmations with
  | 0 => (Outcome.panics ("called Option::unwrap on a None value"), [])
  | Nat.succ n =>
    match B.nonneg_from_u64 shielding_threshold with
    | RResult.err _ => (Outcome.panics ("called Result::unwrap on an Err value"), [])
    | RResult.ok threshold =>
      let addresses := from_addrs.map (fun x => x.inner)
      match B.for_path z_db_data.path MAIN_NETWORK with
      | RResult.err _ =>
          (Outcome.panics ("called Result::unwrap on an Err value"),
           [DbEvent.walletOpen z_db_data.path MAIN_NETWORK])
      | RResult.ok db =>
          (Outcome.returns (((B.shield_main_zip317 db params prover.inner
              input_selector.inner threshold usk.inner addresses memo.inner
              (Nat.succ n)).map ZcashTxId.mk).mapErr
              (fun e => ZcashError.Message ("spending error: " ++ e))),
           [DbEvent.walletOpen z_db_data.path MAIN_NETWORK,
            DbEvent.walletOp ("shield_transparent_funds")])

/-- shield_transparent_funds_test_zip317: as the test fixed variant with
the zip317 input selector. -/
def shield_transparent_funds_test_zip317 (B : WalletBackend) (z_db_data : ZcashWalletDb)
    (params : ZcashConsensusParameters) (prover : ZcashLocalTxProver)
    (input_selector : ZcashTestZip317GreedyInputSelector) (shielding_threshold : Nat)
    (usk : ZcashUnifiedSpendingKey) (from_addrs : List ZcashTransparentAddress)
    (memo : ZcashMemoBytes) (min_confirmations : Nat) : Outcome ZcashTxId × List DbEvent :=
  match min_confirmations with
  | 0 => (Outcome.panics ("called Option::unwrap on a None value"), [])
  | Nat.succ n =>
    match B.nonneg_from_u64 shielding_threshold with
    | RResult.err _ => (Outcome.panics ("called Result::unwrap on an Err value"), [])
    | RResult.ok threshold =>
      let addresses := from_addrs.map (fun x => x.inner)
      match B.for_path z_db_data.path TEST_NETWORK with
      | RResult.err _ =>
          (Outcome.panics ("called Result::unwrap on an Err value"),
           [DbEvent.walletOpen z_db_data.path TEST_NETWORK])
      | RResult.ok db =>
          (Outcome.returns (((B.shield_test_zip317 db params prover.inner
              input_selector.inner threshold usk.inner addresses memo.inner
              (Nat.succ n)).map ZcashTxId.mk).mapErr
              (fun e => ZcashError.Message ("spending error: " ++ e))),
           [DbEvent.walletOpen z_db_data.path TEST_NETWORK,
            DbEvent.walletOp ("shield_transparent_funds")])

/- ZcashDiversifiableFullViewingKey::from_bytes, transliterated from
src/lib/uniffi-zcash/src/zcash_client_backend/keys/sapling/
diversifiable_full_viewing_key.rs.  The helper utils::cast_slice and the
underlying library decoder live outside the embedded sources and are
modelled as oracles. -/

/-- Oracle for the utils::cast_slice helper (slice to fixed-size array,
may fail with some FFI error). -/
structure Utils where
  cast_slice : List Nat → RResult (List Nat) ZcashError

/-- Oracle for the underlying library decoder
DiversifiableFullViewingKey::from_bytes, which returns None when the
bytes are not a valid encoding. -/
structure SaplingKeysLib where
  from_bytes : List Nat → Option DiversifiableFullViewingKey

/-- Mirror of the FFI diversifiable full viewing key type. -/
structure ZcashDiversifiableFullViewingKey where
  inner : DiversifiableFullViewingKey
deriving DecidableEq, Repr

/-- ZcashDiversifiableFullViewingKey::from_bytes: casts the byte slice,
then decodes; a decoder failure is mapped to ZcashError::Unknown. -/
def ZcashDiversifiableFullViewingKey.from_bytes (U : Utils) (L : SaplingKeysLib)
    (bytes : List Nat) : ZcashResult ZcashDiversifiableFullViewingKey :=
  match U.cast_slice bytes with
  | RResult.err e => RResult.err e
  | RResult.ok array =>
    match L.from_bytes array with
    | none => RResult.err ZcashError.Unknown
    | some key => RResult.ok (ZcashDiversifiableFullViewingKey.mk key)

/- Command-line tool, transliterated from
src/lib/uniffi-zcash-cli/src/main.rs. -/

/-- The actions dispatched by the match over subcommands in main. -/
inductive CliAction where
  | bindgen
  | release
  | publish
deriving DecidableEq, Repr

/-- The subcommand dispatch in main: the match accepts exactly the
bindgen, release and publish arms and sends everything else to the
catch-all error arm. -/
def dispatch (sub : Option String) : RResult CliAction String :=
  if sub = some ("bindgen") then RResult.ok CliAction.bindgen
  else if sub = some ("release") then RResult.ok CliAction.release
  else if sub = some ("publish") then RResult.ok CliAction.publish
  else RResult.err ("Command not found. See help.")

/-- Field representations of the mirror types declared in the embedded
sources: ownership of an underlying library value (a direct copy, an
Arc-wrapped handle, or a mutex-guarded handle), or some other
representation. -/
inductive FieldRepr where
  | ownedLibValue (lib : String)
  | arcLibValue (lib : String)
  | mutexLibValue (lib : String)
  | pathString
  | consensusParams
deriving DecidableEq, Repr

/-- The boundary-exposed mirror types declared in the embedded source
files: the four types shadowing a single underlying library type plus
the three boundary tuple records shadowing pairs returned by the
underlying library. -/
inductive MirrorType where
  | zcashWalletDb
  | zcashFsBlockDb
  | zcashNoteId
  | zcashDiversifiableFullViewingKey
  | tupleMinAndMaxBlockHeight
  | tupleAccountIdAndUnifiedSpendingKey
  | tupleBlockHeightAndHash
deriving DecidableEq, Repr

/-- The fields of each mirror type as declared in the sources:
ZcashWalletDb holds a path string and consensus parameters;
ZcashFsBlockDb holds Mutex of FsBlockDb; ZcashNoteId holds a NoteId;
ZcashDiversifiableFullViewingKey holds a DiversifiableFullViewingKey;
the tuple records hold Arc-wrapped mirrors of the paired library values
(ZcashAccountId being a plain copy of the u32 account identifier). -/
def MirrorType.fieldList : MirrorType → List FieldRepr
  | MirrorType.zcashWalletDb => [FieldRepr.pathString, FieldRepr.consensusParams]
  | MirrorType.zcashFsBlockDb => [FieldRepr.mutexLibValue ("FsBlockDb")]
  | MirrorType.zcashNoteId => [FieldRepr.ownedLibValue ("NoteId")]
  | MirrorType.zcashDiversifiableFullViewingKey =>
      [FieldRepr.ownedLibValue ("DiversifiableFullViewingKey")]
  | MirrorType.tupleMinAndMaxBlockHeight =>
      [FieldRepr.arcLibValue ("BlockHeight"), FieldRepr.arcLibValue ("BlockHeight")]
  | MirrorType.tupleAccountIdAndUnifiedSpendingKey =>
      [FieldRepr.ownedLibValue ("AccountId"),
       FieldRepr.arcLibValue ("UnifiedSpendingKey")]
  | MirrorType.tupleBlockHeightAndHash =>
      [FieldRepr.arcLibValue ("BlockHeight"), FieldRepr.arcLibValue ("BlockHash")]

/-- Whether a field holds the underlying library value (a copy or a
reference-counted or mutex-guarded handle). -/
def FieldRepr.isLibraryValue : FieldRepr → Bool
  | FieldRepr.ownedLibValue _ => true
  | FieldRepr.arcLibValue _ => true
  | FieldRepr.mutexLibValue _ => true
  | FieldRepr.pathString => false
  | FieldRepr.consensusParams => false

/-- Whether a mirror type owns the underlying library value it shadows. -/
def MirrorType.ownsLibraryValue (t : MirrorType) : Bool :=
  t.fieldList.any FieldRepr.isLibraryValue

/-- What a construction of a mirror type starts from: an underlying
library value (a From impl, or the value returned by a library call), a
path string, or other FFI-side components such as raw bytes. -/
inductive CtorInput where
  | libValue (lib : String)
  | pathString
  | components
deriving DecidableEq, Repr

/-- The constructions of each mirror type as declared in the sources:
ZcashWalletDb::for_path takes a path string and parameters;
ZcashFsBlockDb::for_path takes a path string (the FsBlockDb value is
created inside it, not received); ZcashNoteId has From of NoteId and a
component constructor new(txid, protocol, index);
ZcashDiversifiableFullViewingKey has From of the key and from_bytes; the
tuple records are built in the adapters from pairs returned by the
underlying library calls. -/
def MirrorType.ctorInputs : MirrorType → List CtorInput
  | MirrorType.zcashWalletDb => [CtorInput.pathString]
  | MirrorType.zcashFsBlockDb => [CtorInput.pathString]
  | MirrorType.zcashNoteId => [CtorInput.libValue ("NoteId"), CtorInput.components]
  | MirrorType.zcashDiversifiableFullViewingKey =>
      [CtorInput.libValue ("DiversifiableFullViewingKey"), CtorInput.components]
  | MirrorType.tupleMinAndMaxBlockHeight =>
      [CtorInput.libValue ("BlockHeight pair")]
  | MirrorType.tupleAccountIdAndUnifiedSpendingKey =>
      [CtorInput.libValue ("AccountId and UnifiedSpendingKey pair")]
  | MirrorType.tupleBlockHeightAndHash =>
      [CtorInput.libValue ("BlockHeight and BlockHash pair")]

/-- Whether a construction input is an underlying library value. -/
def CtorInput.isLibValue : CtorInput → Bool
  | CtorInput.libValue _ => true
  | CtorInput.pathString => false
  | CtorInput.components => false

/-- Whether a mirror type has a construction from the underlying library
value it shadows. -/
def MirrorType.constructedFromLibValue (t : MirrorType) : Bool :=
  t.ctorInputs.any CtorInput.isLibValue

/- The release (packaging) command, transliterated from prepare_release in
src/lib/uniffi-zcash-cli/src/main.rs.  Filesystem operations, template
substitutions and external commands are recorded as effects in source
order; tmp_folder and the workspace root are parameters. -/

/-- Effects performed by the packaging pipeline. -/
inductive ReleaseEffect where
  | removeDirAll (dir : String)
  | createDirAll (dir : String)
  | copyDir (src dst : String)
  | copyFile (src dst : String)
  | templateReplace (file : String) (data : List (String × String))
  | runCmd (program : String) (args : List String) (cwd : Option String)
  | fixRubyLoadPath (file : String)
deriving DecidableEq, Repr

/-- Path join helper (PathBuf::join). -/
def pjoin (a b : String) : String := a ++ "/" ++ b

/-- The supported languages, in declaration order (SupportedLang::iter). -/
inductive SupportedLang where
  | python
  | kotlin
  | swift
  | ruby
deriving DecidableEq, Repr

/-- The kebab-case serialization of SupportedLang (strum Display). -/
def SupportedLang.kebab : SupportedLang → String
  | SupportedLang.python => "python"
  | SupportedLang.kotlin => "kotlin"
  | SupportedLang.swift => "swift"
  | SupportedLang.ruby => "ruby"

/-- SupportedLang::iter order. -/
def supportedLangList : List SupportedLang :=
  [SupportedLang.python, SupportedLang.kotlin, SupportedLang.swift, SupportedLang.ruby]

/-- The per-language arm of prepare_release, in source order of
effects. -/
def langReleaseEffects (root version url tmp : String) :
    SupportedLang → List ReleaseEffect :=
  let bindings_path := pjoin root ("bindings")
  let packaging_dir := pjoin root ("packages")
  let template_dir := pjoin (pjoin root ("uniffi-zcash-cli")) ("templates")
  fun lang =>
  match lang with
  | SupportedLang.python =>
    let lang_pack_dir := pjoin packaging_dir ("python")
    let bindings := pjoin bindings_path ("python")
    [ReleaseEffect.copyDir (pjoin template_dir ("python")) packaging_dir,
     ReleaseEffect.copyFile (pjoin bindings ("libuniffi_zcash.so"))
       (pjoin (pjoin lang_pack_dir ("zcash")) ("libuniffi_zcash.so")),
     ReleaseEffect.copyFile (pjoin bindings ("zcash.py"))
       (pjoin (pjoin lang_pack_dir ("zcash")) ("zcash.py")),
     ReleaseEffect.templateReplace (pjoin lang_pack_dir ("setup.py")) [(("version"), version)],
     ReleaseEffect.runCmd ("python")
       [("-m"), ("pip"), ("install"), ("--user"), ("--upgrade"), ("build")] none,
     ReleaseEffect.runCmd ("python") [("-m"), ("build")] (some lang_pack_dir),
     ReleaseEffect.runCmd ("python")
       [("-m"), ("pip"), ("install"), ("--force-reinstall"), (".")] (some lang_pack_dir),
     ReleaseEffect.copyDir (pjoin template_dir ("python_test_app")) tmp,
     ReleaseEffect.runCmd ("python") [("app.py")] (some tmp)]
  | SupportedLang.kotlin =>
    let lang_pack_dir := pjoin packaging_dir ("kotlin")
    let bindings_code := pjoin (pjoin (pjoin bindings_path ("kotlin")) ("uniffi")) ("zcash")
    [ReleaseEffect.copyDir (pjoin template_dir ("kotlin")) packaging_dir,
     ReleaseEffect.copyFile (pjoin bindings_code ("libuniffi_zcash.so"))
       (pjoin (pjoin (pjoin lang_pack_dir ("lib")) ("libs")) ("libuniffi_zcash.so")),
     ReleaseEffect.copyFile (pjoin bindings_code ("zcash.kt"))
       (pjoin (pjoin (pjoin (pjoin (pjoin (pjoin lang_pack_dir ("lib")) ("src")) ("main"))
         ("kotlin")) ("zcash")) ("Zcash.kt")),
     ReleaseEffect.templateReplace (pjoin (pjoin lang_pack_dir ("lib")) ("build.gradle.kts"))
       [(("version"), version)],
     ReleaseEffect.runCmd ("gradle") [("publishToMavenLocal")] (some lang_pack_dir),
     ReleaseEffect.copyDir (pjoin template_dir ("kotlin_test_app")) tmp,
     ReleaseEffect.templateReplace (pjoin (pjoin tmp ("app")) ("build.gradle.kts"))
       [(("version"), version)],
     ReleaseEffect.runCmd ("gradle") [("run")] (some tmp)]
  | SupportedLang.swift =>
    let lang_pack_dir := pjoin (pjoin packaging_dir ("swift")) ("Zcash")
    let bindings := pjoin bindings_path ("swift")
    let shared_lib_dir := pjoin (pjoin lang_pack_dir ("Sources")) ("zcashFFI")
    [ReleaseEffect.runCmd ("git") [("clone"), url, lang_pack_dir] none,
     ReleaseEffect.copyDir (pjoin template_dir ("swift")) lang_pack_dir,
     ReleaseEffect.copyFile (pjoin bindings ("libuniffi_zcash.so"))
       (pjoin shared_lib_dir ("libuniffi_zcash.so")),
     ReleaseEffect.copyFile (pjoin bindings ("zcashFFI.h"))
       (pjoin shared_lib_dir ("uniffi_zcash.h")),
     ReleaseEffect.copyFile (pjoin bindings ("zcash.swift"))
       (pjoin (pjoin (pjoin lang_pack_dir ("Sources")) ("Zcash")) ("zcash.swift")),
     ReleaseEffect.runCmd ("git") [("add"), (".")] (some lang_pack_dir),
     ReleaseEffect.runCmd ("git") [("commit"), ("-m"), ("Version " ++ version)]
       (some lang_pack_dir),
     ReleaseEffect.runCmd ("git") [("tag"), version] (some lang_pack_dir),
     ReleaseEffect.copyDir (pjoin template_dir ("swift_test_app")) tmp,
     ReleaseEffect.templateReplace (pjoin tmp ("Package.swift"))
       [(("version"), version), (("git_repo_path"), lang_pack_dir)],
     ReleaseEffect.runCmd ("swift")
       [("run"), ("-Xlinker"), ("-L" ++ shared_lib_dir)] (some tmp)]
  | SupportedLang.ruby =>
    let lang_pack_dir := pjoin packaging_dir ("ruby")
    let bindings := pjoin bindings_path ("ruby")
    [ReleaseEffect.copyDir (pjoin template_dir ("ruby")) packaging_dir,
     ReleaseEffect.copyFile (pjoin bindings ("libuniffi_zcash.so"))
       (pjoin (pjoin lang_pack_dir ("lib")) ("libuniffi_zcash.so")),
     ReleaseEffect.copyFile (pjoin bindings ("zcash.rb"))
       (pjoin (pjoin lang_pack_dir ("lib")) ("zcash.rb")),
     ReleaseEffect.templateReplace (pjoin lang_pack_dir ("zcash.gemspec"))
       [(("version"), version)],
     ReleaseEffect.fixRubyLoadPath (pjoin (pjoin lang_pack_dir ("lib")) ("zcash.rb")),
     ReleaseEffect.runCmd ("gem") [("build"), ("zcash.gemspec")] (some lang_pack_dir),
     ReleaseEffect.runCmd ("gem")
       [("install"), ("./zcash-" ++ version ++ ".gem")] (some lang_pack_dir),
     ReleaseEffect.copyDir (pjoin template_dir ("ruby_test_app")) tmp,
     ReleaseEffect.runCmd ("ruby") [("app.rb")] (some tmp)]

/-- The effect list of prepare_release when the bindings directory
exists: clear and recreate the packaging directory, then run the arm of
each enabled language in iteration order. -/
def prepareReleaseEffects (root version url tmp : String)
    (enabled : List String) : List ReleaseEffect :=
  [ReleaseEffect.removeDirAll (pjoin root ("packages")),
   ReleaseEffect.createDirAll (pjoin root ("packages"))] ++
  (supportedLangList.filter (fun l => enabled.contains l.kebab)).flatMap
    (langReleaseEffects root version url tmp)

/-- prepare_release: fails when the bindings directory does not exist,
otherwise performs the packaging effects. -/
def prepare_release (root version url tmp : String) (enabled : List String)
    (bindingsExist : Bool) : RResult (List ReleaseEffect) String :=
  if bindingsExist then RResult.ok (prepareReleaseEffects root version url tmp enabled)
  else RResult.err ("This command depends on the output of bindgen . Execute it first.")

/-- Spec-side description, following the specification text: an
invocation of a wallet-database adapter method simply forwards the call
to a single underlying database object reconstructed from the stored
path string (and consensus parameters) on every invocation, so its trace
is exactly one fresh open of the stored path followed by exactly one
underlying operation. -/
def specForwardsFreshly (self : ZcashWalletDb) (opName : String)
    (trace : List DbEvent) : Prop :=
  trace = [DbEvent.walletOpen self.path self.params, DbEvent.walletOp opName]

/- Concrete oracle instances used to exercise the theorems on concrete
inputs. -/

/-- A backend on which every operation succeeds. -/
def okBackend : WalletBackend where
  for_path := fun _ _ => RResult.ok 7
  init_wallet_db := fun _ _ => RResult.ok ()
  chain_height := fun _ => RResult.ok (some 100)
  block_metadata := fun _ _ => RResult.ok (some (BlockMetadata.mk 3))
  block_fully_scanned := fun _ => RResult.ok (some (BlockMetadata.mk 3))
  block_max_scanned := fun _ => RResult.ok (some (BlockMetadata.mk 3))
  suggest_scan_ranges := fun _ => RResult.ok [ScanRange.mk 1]
  get_target_and_anchor_heights := fun _ _ => RResult.ok (some (90, 80))
  get_min_unspent_height := fun _ => RResult.ok (some 50)
  get_block_hash := fun _ _ => RResult.ok (some (BlockHash.mk 6))
  get_max_height_hash := fun _ => RResult.ok (some (99, BlockHash.mk 6))
  get_tx_height := fun _ _ => RResult.ok (some 77)
  get_wallet_birthday := fun _ => RResult.ok (some 10)
  get_account_birthday := fun _ _ => RResult.ok 10
  get_current_address := fun _ _ => RResult.ok (some (UnifiedAddress.mk 2))
  get_unified_full_viewing_keys := fun _ =>
    RResult.ok [(1, UnifiedFullViewingKey.mk 8)]
  get_account_for_ufvk := fun _ _ => RResult.ok (some 1)
  is_valid_account_extfvk := fun _ _ _ => RResult.ok true
  get_wallet_summary := fun _ _ => RResult.ok (some (WalletSummary.mk 7))
  get_memo := fun _ _ => RResult.ok (some (Memo.mk 5))
  get_transaction := fun _ _ => RResult.ok (Transaction.mk 9)
  get_transparent_receivers := fun _ _ =>
    RResult.ok [(TransparentAddress.mk 1, AddressMetadata.mk 2)]
  get_unspent_transparent_outputs := fun _ _ _ _ =>
    RResult.ok [WalletTransparentOutput.mk 4]
  get_transparent_balances := fun _ _ _ =>
    RResult.ok [(TransparentAddress.mk 1, Amount.mk 3)]
  create_account := fun _ _ _ => RResult.ok (1, UnifiedSpendingKey.mk 3)
  get_next_available_address := fun _ _ => RResult.ok (some (UnifiedAddress.mk 2))
  update_chain_tip := fun _ _ => RResult.ok ()
  store_decrypted_tx := fun _ _ => RResult.ok ()
  truncate_to_height := fun _ _ => RResult.ok ()
  put_received_transparent_utxo := fun _ _ => RResult.ok (UtxoId.mk 42)
  put_sapling_subtree_roots := fun _ _ _ => RResult.ok ()
  decrypt_and_store_transaction := fun _ _ _ => RResult.ok ()
  spend_main_fixed := fun _ _ _ _ _ _ _ _ => RResult.ok (TxId.mk 11)
  spend_test_fixed := fun _ _ _ _ _ _ _ _ => RResult.ok (TxId.mk 12)
  spend_main_zip317 := fun _ _ _ _ _ _ _ _ => RResult.ok (TxId.mk 13)
  spend_test_zip317 := fun _ _ _ _ _ _ _ _ => RResult.ok (TxId.mk 14)
  shield_main_fixed := fun _ _ _ _ _ _ _ _ _ => RResult.ok (TxId.mk 21)
  shield_test_fixed := fun _ _ _ _ _ _ _ _ _ => RResult.ok (TxId.mk 22)
  shield_main_zip317 := fun _ _ _ _ _ _ _ _ _ => RResult.ok (TxId.mk 23)
  shield_test_zip317 := fun _ _ _ _ _ _ _ _ _ => RResult.ok (TxId.mk 24)
  nonneg_from_u64 := fun n => RResult.ok (NonNegativeAmount.mk n)

/-- A backend on which opening the wallet database fails. -/
def failBackend : WalletBackend :=
  { okBackend with for_path := fun _ _ => RResult.err ("io error") }

/-- A backend on which the wallet has no memo for any note: get_memo
succeeds with None. -/
def memoNoneBackend : WalletBackend :=
  { okBackend with get_memo := fun _ _ => RResult.ok none }

/-- A backend on which the handle opens but every database operation
reports an underlying error. -/
def errAllBackend : WalletBackend where
  for_path := fun _ _ => RResult.ok 7
  init_wallet_db := fun _ _ => RResult.err ("boom")
  chain_height := fun _ => RResult.err ("boom")
  block_metadata := fun _ _ => RResult.err ("boom")
  block_fully_scanned := fun _ => RResult.err ("boom")
  block_max_scanned := fun _ => RResult.err ("boom")
  suggest_scan_ranges := fun _ => RResult.err ("boom")
  get_target_and_anchor_heights := fun _ _ => RResult.err ("boom")
  get_min_unspent_height := fun _ => RResult.err ("boom")
  get_block_hash := fun _ _ => RResult.err ("boom")
  get_max_height_hash := fun _ => RResult.err ("boom")
  get_tx_height := fun _ _ => RResult.err ("boom")
  get_wallet_birthday := fun _ => RResult.err ("boom")
  get_account_birthday := fun _ _ => RResult.err ("boom")
  get_current_address := fun _ _ => RResult.err ("boom")
  get_unified_full_viewing_keys := fun _ => RResult.err ("boom")
  get_account_for_ufvk := fun _ _ => RResult.err ("boom")
  is_valid_account_extfvk := fun _ _ _ => RResult.err ("boom")
  get_wallet_summary := fun _ _ => RResult.err ("boom")
  get_memo := fun _ _ => RResult.err ("boom")
  get_transaction := fun _ _ => RResult.err ("boom")
  get_transparent_receivers := fun _ _ => RResult.err ("boom")
  get_unspent_transparent_outputs := fun _ _ _ _ => RResult.err ("boom")
  get_transparent_balances := fun _ _ _ => RResult.err ("boom")
  create_account := fun _ _ _ => RResult.err ("boom")
  get_next_available_address := fun _ _ => RResult.err ("boom")
  update_chain_tip := fun _ _ => RResult.err ("boom")
  store_decrypted_tx := fun _ _ => RResult.err ("boom")
  truncate_to_height := fun _ _ => RResult.err ("boom")
  put_received_transparent_utxo := fun _ _ => RResult.err ("boom")
  put_sapling_subtree_roots := fun _ _ _ => RResult.err ("boom")
  decrypt_and_store_transaction := fun _ _ _ => RResult.err ("boom")
  spend_main_fixed := fun _ _ _ _ _ _ _ _ => RResult.err ("boom")
  spend_test_fixed := fun _ _ _ _ _ _ _ _ => RResult.err ("boom")
  spend_main_zip317 := fun _ _ _ _ _ _ _ _ => RResult.err ("boom")
  spend_test_zip317 := fun _ _ _ _ _ _ _ _ => RResult.err ("boom")
  shield_main_fixed := fun _ _ _ _ _ _ _ _ _ => RResult.err ("boom")
  shield_test_fixed := fun _ _ _ _ _ _ _ _ _ => RResult.err ("boom")
  shield_main_zip317 := fun _ _ _ _ _ _ _ _ _ => RResult.err ("boom")
  shield_test_zip317 := fun _ _ _ _ _ _ _ _ _ => RResult.err ("boom")
  nonneg_from_u64 := fun n => RResult.ok (NonNegativeAmount.mk n)

/-- A file-system block database backend on which every operation
succeeds. -/
def fsOkBackend : FsBackend where
  fs_for_path := fun _ => RResult.ok 9
  find_block := fun _ _ => RResult.ok (some (BlockMeta.mk 4))
  get_max_cached_height := fun _ => RResult.ok (some 55)
  write_block_metadata := fun _ _ => RResult.ok ()

/-- A file-system block database backend on which construction fails. -/
def fsFailBackend : FsBackend :=
  { fsOkBackend with fs_for_path := fun _ => RResult.err ("io error") }

/-- A file-system block database backend on which construction succeeds
but the operations report underlying errors. -/
def fsErrBackend : FsBackend where
  fs_for_path := fun _ => RResult.ok 9
  find_block := fun _ _ => RResult.err ("boom")
  get_max_cached_height := fun _ => RResult.err ("boom")
  write_block_metadata := fun _ _ => RResult.err ("boom")

/-- A cast_slice oracle accepting exactly 128-byte inputs. -/
def utils128 : Utils where
  cast_slice := fun l =>
    if l.length = 128 then RResult.ok l
    else RResult.err (ZcashError.Message ("could not convert slice to array"))

/-- A decoder oracle on which no byte encoding is a valid key. -/
def rejectAllKeysLib : SaplingKeysLib where
  from_bytes := fun _ => none

/-- C10: ZcashWalletDb::for_path returns Ok for every path string and
every choice of consensus parameters, performing no input validation and
no backend call at all; an inaccessible database path is detected only by
a later operation, which panics on the handle-open expect, never by
for_path itself. -/
theorem c10_for_path_always_ok (path : String) (params : ZcashConsensusParameters)
    (B : WalletBackend) (m : String)
    (hopen : B.for_path path params = RResult.err m) :
    ZcashWalletDb.for_path path params =
      (Outcome.returns (RResult.ok (ZcashWalletDb.mk path params)), []) ∧
    (ZcashWalletDb.chain_height B (ZcashWalletDb.mk path params)).1 =
      Outcome.panics ("Cannot access the DB!") := by
  refine ⟨rfl, ?_⟩
  simp [ZcashWalletDb.chain_height, hopen]

/-- C10 witness: concrete instance at a backend that fails to open. -/
theorem c10_for_path_always_ok_witness :
    failBackend.for_path ("db") ZcashConsensusParameters.MainNetwork =
      RResult.err ("io error") ∧
    (ZcashWalletDb.for_path ("db") ZcashConsensusParameters.MainNetwork =
      (Outcome.returns (RResult.ok
        (ZcashWalletDb.mk ("db") ZcashConsensusParameters.MainNetwork)), []) ∧
    (ZcashWalletDb.chain_height failBackend
      (ZcashWalletDb.mk ("db") ZcashConsensusParameters.MainNetwork)).1 =
      Outcome.panics ("Cannot access the DB!")) :=
  ⟨rfl, c10_for_path_always_ok ("db") ZcashConsensusParameters.MainNetwork
    failBackend ("io error") rfl⟩

/-- C5 counterexample: the command dispatch in main rejects the setup
subcommand with the catch-all error arm, so no setup command is accepted
and dispatched by the CLI. -/
theorem c5_counterexample_setup_rejected :
    dispatch (some ("setup")) = RResult.err ("Command not found. See help.") := by
  decide

/-- C5 amended: the command surface dispatched by the CLI comprises
exactly the binding-generation command, the packaging/release command and
the publish command; a setup command and any other command are rejected
with an error. -/
theorem c5_amended_dispatch (s : String)
    (h1 : s ≠ "bindgen") (h2 : s ≠ "release") (h3 : s ≠ "publish") :
    dispatch (some ("bindgen")) = RResult.ok CliAction.bindgen ∧
    dispatch (some ("release")) = RResult.ok CliAction.release ∧
    dispatch (some ("publish")) = RResult.ok CliAction.publish ∧
    dispatch none = RResult.err ("Command not found. See help.") ∧
    dispatch (some s) = RResult.err ("Command not found. See help.") := by
  refine ⟨by decide, by decide, by decide, by decide, ?_⟩
  simp [dispatch, h1, h2, h3]

/-- C5 witness: the amended dispatch behaviour at the setup command. -/
theorem c5_amended_dispatch_witness :
    (("setup" : String) ≠ "bindgen" ∧ ("setup" : String) ≠ "release" ∧
      ("setup" : String) ≠ "publish") ∧
    dispatch (some ("setup")) = RResult.err ("Command not found. See help.") :=
  ⟨⟨by decide, by decide, by decide⟩,
   (c5_amended_dispatch ("setup") (by decide) (by decide) (by decide)).2.2.2.2⟩

/-- C6 counterexample: two mirror types violate the claim at concrete
inputs. ZcashWalletDb owns no copy or handle of the WalletDb value it
shadows — its declared fields are a bare path string and consensus
parameters, exactly the substituted representation the claim rules out —
and its only construction starts from that path string, not from a
library value. ZcashFsBlockDb, though it owns its FsBlockDb value, is
likewise constructed from a path string rather than from a library
value. -/
theorem c6_counterexample_mirror_representation :
    MirrorType.ownsLibraryValue MirrorType.zcashWalletDb = false ∧
    MirrorType.fieldList MirrorType.zcashWalletDb =
      [FieldRepr.pathString, FieldRepr.consensusParams] ∧
    MirrorType.constructedFromLibValue MirrorType.zcashWalletDb = false ∧
    MirrorType.ctorInputs MirrorType.zcashWalletDb = [CtorInput.pathString] ∧
    MirrorType.constructedFromLibValue MirrorType.zcashFsBlockDb = false ∧
    MirrorType.ctorInputs MirrorType.zcashFsBlockDb = [CtorInput.pathString] := by
  decide

/-- C6 amended: every boundary-exposed mirror type declared in the
embedded sources — the three boundary tuple records included — owns a
copy, a reference-counted handle, or a mutex-guarded handle of the
underlying library value(s) it shadows, consists of nothing but such
handles (so it has no independent state, invariants, or lifecycle beyond
construction and destruction of the owned value), and is constructed
from such a library value, with exactly the exceptions the code forces:
ZcashWalletDb substitutes a bare path string plus consensus parameters
for the library value (neither owning nor being constructed from it),
and ZcashFsBlockDb, while owning its FsBlockDb value, is constructed
from a path string rather than from a library value. -/
theorem c6_amended_mirror_types (t : MirrorType) :
    (t ≠ MirrorType.zcashWalletDb →
      t.ownsLibraryValue = true ∧ t.fieldList.all FieldRepr.isLibraryValue = true) ∧
    (t ≠ MirrorType.zcashWalletDb → t ≠ MirrorType.zcashFsBlockDb →
      t.constructedFromLibValue = true) := by
  cases t
  · exact ⟨fun h => absurd rfl h, fun h _ => absurd rfl h⟩
  · exact ⟨fun _ => ⟨rfl, rfl⟩, fun _ h => absurd rfl h⟩
  · exact ⟨fun _ => ⟨rfl, rfl⟩, fun _ _ => rfl⟩
  · exact ⟨fun _ => ⟨rfl, rfl⟩, fun _ _ => rfl⟩
  · exact ⟨fun _ => ⟨rfl, rfl⟩, fun _ _ => rfl⟩
  · exact ⟨fun _ => ⟨rfl, rfl⟩, fun _ _ => rfl⟩
  · exact ⟨fun _ => ⟨rfl, rfl⟩, fun _ _ => rfl⟩

/-- C6 witness: the note-identifier mirror type owns its library value,
consists solely of it, and is constructed from it. -/
theorem c6_amended_mirror_types_witness :
    (MirrorType.zcashNoteId ≠ MirrorType.zcashWalletDb ∧
     MirrorType.zcashNoteId ≠ MirrorType.zcashFsBlockDb) ∧
    (MirrorType.ownsLibraryValue MirrorType.zcashNoteId = true ∧
     (MirrorType.fieldList MirrorType.zcashNoteId).all FieldRepr.isLibraryValue =
       true) ∧
    MirrorType.constructedFromLibValue MirrorType.zcashNoteId = true :=
  ⟨⟨by decide, by decide⟩,
   (c6_amended_mirror_types MirrorType.zcashNoteId).1 (by decide),
   (c6_amended_mirror_types MirrorType.zcashNoteId).2 (by decide) (by decide)⟩

/-- C1 counterexample: ZcashWalletDb::get_memo does more than argument
and result type conversion: when the underlying library successfully
returns Ok(None) — no memo stored for the note — the adapter panics on
the unconditional memo.unwrap() instead of returning the converted
underlying result. -/
theorem c1_counterexample_get_memo_unwrap_panics :
    memoNoneBackend.get_memo 7 (NoteId.mk 0) = RResult.ok none ∧
    (ZcashWalletDb.get_memo memoNoneBackend
      (ZcashWalletDb.mk ("db") ZcashConsensusParameters.MainNetwork)
      (ZcashNoteId.mk (NoteId.mk 0))).1 =
      Outcome.panics ("called Option::unwrap on a None value") := by
  decide

/-- C1 amended: every public database method of the wallet-database
adapter (every public method except the for_path constructor)
reconstructs the underlying database object from the stored path string
and consensus parameters on each invocation via WalletDb::for_path (the
trace of every call is exactly one fresh open of the stored path followed
by exactly one underlying-library operation, matching the spec-side
description specForwardsFreshly), and forwards the call to that single
operation; no database handle is cached or pooled (the adapter state
holds only the path and the parameters).  All methods perform only
argument and result type conversion, except get_memo, which additionally
unwraps the optional memo inside the Ok result and panics when the
underlying library returns no memo. -/
theorem c1_walletdb_methods_forward_freshly
    (B : WalletBackend) (self : ZcashWalletDb) (h : DbHandle)
    (seed : List Nat) (height : ZcashBlockHeight) (mc mws : Nat)
    (seed2 : List Nat) (bd : ZcashAccountBirthday) (tip trh sidx : Nat)
    (roots : List ZcashCommitmentTreeRoot)
    (txid : ZcashTxId) (account : ZcashAccountId)
    (zufvk : ZcashUnifiedFullViewingKey) (extfvk : ZcashExtendedFullViewingKey)
    (note : ZcashNoteId) (m : Memo) (s : SqliteClientError)
    (zta : ZcashTransparentAddress) (zop : List ZcashOutPoint)
    (maxh : ZcashBlockHeight) (d_tx : ZcashDecryptedTransaction)
    (output : ZcashWalletTransparentOutput)
    (hopen : B.for_path self.path self.params = RResult.ok h) :
    (specForwardsFreshly self ("init_wallet_db") (ZcashWalletDb.init B self seed).2 ∧
      (ZcashWalletDb.init B self seed).1 = Outcome.returns
        ((B.init_wallet_db h (some seed)).mapErr
          (fun e => ZcashError.Message ("Error while initializing data DB: " ++ e)))) ∧
    (specForwardsFreshly self ("chain_height") (ZcashWalletDb.chain_height B self).2 ∧
      (ZcashWalletDb.chain_height B self).1 = Outcome.returns
        (((B.chain_height h).map
          (fun x => x.map ZcashBlockHeight.fromHeight)).mapErr cast_err)) ∧
    (specForwardsFreshly self ("block_metadata")
        (ZcashWalletDb.block_metadata B self height).2 ∧
      (ZcashWalletDb.block_metadata B self height).1 = Outcome.returns
        (((B.block_metadata h height.toHeight).map
          (fun x => x.map ZcashBlockMetadata.mk)).mapErr cast_err)) ∧
    (specForwardsFreshly self ("block_fully_scanned")
        (ZcashWalletDb.block_fully_scanned B self).2 ∧
      (ZcashWalletDb.block_fully_scanned B self).1 = Outcome.returns
        (((B.block_fully_scanned h).map
          (fun x => x.map ZcashBlockMetadata.mk)).mapErr cast_err)) ∧
    (specForwardsFreshly self ("block_max_scanned")
        (ZcashWalletDb.block_max_scanned B self).2 ∧
      (ZcashWalletDb.block_max_scanned B self).1 = Outcome.returns
        (((B.block_max_scanned h).map
          (fun x => x.map ZcashBlockMetadata.mk)).mapErr cast_err)) ∧
    (specForwardsFreshly self ("suggest_scan_ranges")
        (ZcashWalletDb.suggest_scan_ranges B self).2 ∧
      (ZcashWalletDb.suggest_scan_ranges B self).1 = Outcome.returns
        (((B.suggest_scan_ranges h).map
          (fun hs => hs.map ZcashScanRange.mk)).mapErr cast_err)) ∧
    (specForwardsFreshly self ("get_target_and_anchor_heights")
        (ZcashWalletDb.get_target_and_anchor_heights B self (Nat.succ mc)).2) ∧
    (specForwardsFreshly self ("get_min_unspent_height")
        (ZcashWalletDb.get_min_unspent_height B self).2 ∧
      (ZcashWalletDb.get_min_unspent_height B self).1 = Outcome.returns
        (((B.get_min_unspent_height h).map
          (fun x => x.map ZcashBlockHeight.fromHeight)).mapErr cast_err)) ∧
    (specForwardsFreshly self ("get_block_hash")
        (ZcashWalletDb.get_block_hash B self height).2 ∧
      (ZcashWalletDb.get_block_hash B self height).1 = Outcome.returns
        (((B.get_block_hash h height.toHeight).map
          (fun x => x.map ZcashBlockHash.mk)).mapErr cast_err)) ∧
    (specForwardsFreshly self ("get_max_height_hash")
        (ZcashWalletDb.get_max_height_hash B self).2 ∧
      (ZcashWalletDb.get_max_height_hash B self).1 = Outcome.returns
        (((B.get_max_height_hash h).map
          (fun x => x.map (fun p => TupleBlockHeightAndHash.mk
            (ZcashBlockHeight.fromHeight p.1) (ZcashBlockHash.mk p.2)))).mapErr
          cast_err)) ∧
    (specForwardsFreshly self ("get_tx_height")
        (ZcashWalletDb.get_tx_height B self txid).2 ∧
      (ZcashWalletDb.get_tx_height B self txid).1 = Outcome.returns
        (((B.get_tx_height h txid.inner).map
          (fun x => x.map ZcashBlockHeight.fromHeight)).mapErr cast_err)) ∧
    (specForwardsFreshly self ("get_wallet_birthday")
        (ZcashWalletDb.get_wallet_birthday B self).2 ∧
      (ZcashWalletDb.get_wallet_birthday B self).1 = Outcome.returns
        (((B.get_wallet_birthday h).map
          (fun x => x.map ZcashBlockHeight.fromHeight)).mapErr cast_err)) ∧
    (specForwardsFreshly self ("get_account_birthday")
        (ZcashWalletDb.get_account_birthday B self account).2 ∧
      (ZcashWalletDb.get_account_birthday B self account).1 = Outcome.returns
        (((B.get_account_birthday h account.id).map
          ZcashBlockHeight.fromHeight).mapErr cast_err)) ∧
    (specForwardsFreshly self ("get_current_address")
        (ZcashWalletDb.get_current_address B self account).2 ∧
      (ZcashWalletDb.get_current_address B self account).1 = Outcome.returns
        (((B.get_current_address h account.id).map
          (fun x => x.map ZcashUnifiedAddress.mk)).mapErr cast_err)) ∧
    (specForwardsFreshly self ("get_unified_full_viewing_keys")
        (ZcashWalletDb.get_unified_full_viewing_keys B self).2 ∧
      (ZcashWalletDb.get_unified_full_viewing_keys B self).1 = Outcome.returns
        (((B.get_unified_full_viewing_keys h).map
          (fun hm => hm.map (fun p =>
            (ZcashAccountId.mk p.1, ZcashUnifiedFullViewingKey.mk p.2)))).mapErr
          cast_err)) ∧
    (specForwardsFreshly self ("get_account_for_ufvk")
        (ZcashWalletDb.get_account_for_ufvk B self zufvk).2 ∧
      (ZcashWalletDb.get_account_for_ufvk B self zufvk).1 = Outcome.returns
        (((B.get_account_for_ufvk h zufvk.inner).map
          (fun x => x.map ZcashAccountId.mk)).mapErr cast_err)) ∧
    (specForwardsFreshly self ("is_valid_account_extfvk")
        (ZcashWalletDb.is_valid_account_extfvk B self account extfvk).2 ∧
      (ZcashWalletDb.is_valid_account_extfvk B self account extfvk).1 =
        Outcome.returns
          ((B.is_valid_account_extfvk h account.id extfvk.inner).mapErr cast_err)) ∧
    (specForwardsFreshly self ("get_wallet_summary")
        (ZcashWalletDb.get_wallet_summary B self mws).2 ∧
      (ZcashWalletDb.get_wallet_summary B self mws).1 = Outcome.returns
        (((B.get_wallet_summary h mws).map
          (fun x => x.map ZcashWalletSummary.mk)).mapErr cast_err)) ∧
    (specForwardsFreshly self ("get_memo") (ZcashWalletDb.get_memo B self note).2 ∧
      (B.get_memo h note.inner = RResult.ok (some m) →
        (ZcashWalletDb.get_memo B self note).1 =
          Outcome.returns (RResult.ok (ZcashMemo.mk m))) ∧
      (B.get_memo h note.inner = RResult.ok none →
        (ZcashWalletDb.get_memo B self note).1 =
          Outcome.panics ("called Option::unwrap on a None value")) ∧
      (B.get_memo h note.inner = RResult.err s →
        (ZcashWalletDb.get_memo B self note).1 =
          Outcome.returns (RResult.err (cast_err s)))) ∧
    (specForwardsFreshly self ("get_transaction")
        (ZcashWalletDb.get_transaction B self txid).2 ∧
      (ZcashWalletDb.get_transaction B self txid).1 = Outcome.returns
        (((B.get_transaction h txid.inner).map ZcashTransaction.mk).mapErr cast_err)) ∧
    (specForwardsFreshly self ("get_transparent_receivers")
        (ZcashWalletDb.get_transparent_receivers B self account).2 ∧
      (ZcashWalletDb.get_transparent_receivers B self account).1 = Outcome.returns
        (((B.get_transparent_receivers h account.id).map
          (fun hm => hm.map (fun p =>
            (ZcashTransparentAddress.mk p.1, ZcashAddressMetadata.mk p.2)))).mapErr
          cast_err)) ∧
    (specForwardsFreshly self ("get_unspent_transparent_outputs")
        (ZcashWalletDb.get_unspent_transparent_outputs B self zta height zop).2 ∧
      (ZcashWalletDb.get_unspent_transparent_outputs B self zta height zop).1 =
        Outcome.returns
          (((B.get_unspent_transparent_outputs h zta.inner height.toHeight
              (zop.map (fun x => x.inner))).map
            (fun wtos => wtos.map ZcashWalletTransparentOutput.mk)).mapErr cast_err)) ∧
    (specForwardsFreshly self ("get_transparent_balances")
        (ZcashWalletDb.get_transparent_balances B self account maxh).2 ∧
      (ZcashWalletDb.get_transparent_balances B self account maxh).1 = Outcome.returns
        (((B.get_transparent_balances h account.id maxh.toHeight).map
          (fun hm => hm.map (fun p =>
            (ZcashTransparentAddress.mk p.1, ZcashAmount.mk p.2)))).mapErr cast_err)) ∧
    (specForwardsFreshly self ("create_account")
        (ZcashWalletDb.create_account B self seed2 bd).2 ∧
      (ZcashWalletDb.create_account B self seed2 bd).1 = Outcome.returns
        (((B.create_account h seed2 bd.inner).map
          (fun p => TupleAccountIdAndUnifiedSpendingKey.mk
            (ZcashAccountId.mk p.1) (ZcashUnifiedSpendingKey.mk p.2))).mapErr cast_err)) ∧
    (specForwardsFreshly self ("get_next_available_address")
        (ZcashWalletDb.get_next_available_address B self account).2 ∧
      (ZcashWalletDb.get_next_available_address B self account).1 = Outcome.returns
        (((B.get_next_available_address h account.id).map
          (fun x => x.map ZcashUnifiedAddress.mk)).mapErr cast_err)) ∧
    (specForwardsFreshly self ("update_chain_tip")
        (ZcashWalletDb.update_chain_tip B self tip).2 ∧
      (ZcashWalletDb.update_chain_tip B self tip).1 = Outcome.returns
        ((B.update_chain_tip h ((ZcashBlockHeight.new tip).toHeight)).mapErr cast_err)) ∧
    (specForwardsFreshly self ("store_decrypted_tx")
        (ZcashWalletDb.store_decrypted_tx B self d_tx).2 ∧
      (ZcashWalletDb.store_decrypted_tx B self d_tx).1 = Outcome.returns
        ((B.store_decrypted_tx h d_tx.inner).mapErr cast_err)) ∧
    (specForwardsFreshly self ("truncate_to_height")
        (ZcashWalletDb.truncate_to_height B self trh).2 ∧
      (ZcashWalletDb.truncate_to_height B self trh).1 = Outcome.returns
        ((B.truncate_to_height h ((ZcashBlockHeight.new trh).toHeight)).mapErr cast_err)) ∧
    (specForwardsFreshly self ("put_received_transparent_utxo")
        (ZcashWalletDb.put_received_transparent_utxo B self output).2 ∧
      (ZcashWalletDb.put_received_transparent_utxo B self output).1 = Outcome.returns
        (((B.put_received_transparent_utxo h output.inner).map
          (fun x => x.idx)).mapErr cast_err)) ∧
    (specForwardsFreshly self ("put_sapling_subtree_roots")
        (ZcashWalletDb.put_sapling_subtree_roots B self sidx roots).2 ∧
      (ZcashWalletDb.put_sapling_subtree_roots B self sidx roots).1 = Outcome.returns
        ((B.put_sapling_subtree_roots h sidx (roots.map (fun x => x.inner))).mapErr
          (fun e => ZcashError.Message ("ShardTreeError: " ++ e)))) := by
  repeat' apply And.intro
  all_goals try intro hx
  all_goals simp [ZcashWalletDb.init, ZcashWalletDb.chain_height,
    ZcashWalletDb.block_metadata, ZcashWalletDb.block_fully_scanned,
    ZcashWalletDb.block_max_scanned, ZcashWalletDb.suggest_scan_ranges,
    ZcashWalletDb.get_target_and_anchor_heights, ZcashWalletDb.get_min_unspent_height,
    ZcashWalletDb.get_block_hash, ZcashWalletDb.get_max_height_hash,
    ZcashWalletDb.get_tx_height, ZcashWalletDb.get_wallet_birthday,
    ZcashWalletDb.get_account_birthday, ZcashWalletDb.get_current_address,
    ZcashWalletDb.get_unified_full_viewing_keys, ZcashWalletDb.get_account_for_ufvk,
    ZcashWalletDb.is_valid_account_extfvk, ZcashWalletDb.get_wallet_summary,
    ZcashWalletDb.get_memo, ZcashWalletDb.get_transaction,
    ZcashWalletDb.get_transparent_receivers,
    ZcashWalletDb.get_unspent_transparent_outputs,
    ZcashWalletDb.get_transparent_balances, ZcashWalletDb.create_account,
    ZcashWalletDb.get_next_available_address, ZcashWalletDb.update_chain_tip,
    ZcashWalletDb.store_decrypted_tx, ZcashWalletDb.truncate_to_height,
    ZcashWalletDb.put_received_transparent_utxo,
    ZcashWalletDb.put_sapling_subtree_roots, specForwardsFreshly, hopen, *]

/-- C1 witness: concrete instance on a backend where the open succeeds. -/
theorem c1_walletdb_methods_forward_freshly_witness :
    okBackend.for_path ("db") ZcashConsensusParameters.MainNetwork = RResult.ok 7 ∧
    specForwardsFreshly (ZcashWalletDb.mk ("db") ZcashConsensusParameters.MainNetwork)
      ("chain_height")
      (ZcashWalletDb.chain_height okBackend
        (ZcashWalletDb.mk ("db") ZcashConsensusParameters.MainNetwork)).2 :=
  ⟨rfl,
   (c1_walletdb_methods_forward_freshly okBackend
      (ZcashWalletDb.mk ("db") ZcashConsensusParameters.MainNetwork) 7
      [] (ZcashBlockHeight.mk 4) 0 0 [] (ZcashAccountBirthday.mk (AccountBirthday.mk 0))
      0 0 0 [] (ZcashTxId.mk (TxId.mk 0)) (ZcashAccountId.mk 1)
      (ZcashUnifiedFullViewingKey.mk (UnifiedFullViewingKey.mk 0))
      (ZcashExtendedFullViewingKey.mk (ExtendedFullViewingKey.mk 0))
      (ZcashNoteId.mk (NoteId.mk 0)) (Memo.mk 5) ("boom")
      (ZcashTransparentAddress.mk (TransparentAddress.mk 0)) []
      (ZcashBlockHeight.mk 9) (ZcashDecryptedTransaction.mk (DecryptedTransaction.mk 0))
      (ZcashWalletTransparentOutput.mk (WalletTransparentOutput.mk 0))
      rfl).2.1.1⟩

/-- C3: for every ZcashWalletDb operation that touches the
database, for ZcashFsBlockDb::for_path, and for
decrypt_and_store_transaction, a failure of the underlying library to
open the database handle makes the operation panic (the unconditional
expect or unwrap on WalletDb::for_path or FsBlockDb::for_path); no
operation returns a recoverable Err value for a handle-open failure. -/
theorem c3_handle_open_failure_panics
    (B : WalletBackend) (self : ZcashWalletDb) (m : String)
    (seed : List Nat) (height : ZcashBlockHeight) (mc mws : Nat)
    (seed2 : List Nat) (bd : ZcashAccountBirthday) (tip trh sidx : Nat)
    (roots : List ZcashCommitmentTreeRoot)
    (txid : ZcashTxId) (account : ZcashAccountId)
    (zufvk : ZcashUnifiedFullViewingKey) (extfvk : ZcashExtendedFullViewingKey)
    (note : ZcashNoteId) (zta : ZcashTransparentAddress) (zop : List ZcashOutPoint)
    (maxh : ZcashBlockHeight) (d_tx : ZcashDecryptedTransaction)
    (output : ZcashWalletTransparentOutput)
    (FB : FsBackend) (root : String) (fsm : String)
    (params2 : ZcashConsensusParameters) (zdb : ZcashWalletDb) (tx : ZcashTransaction)
    (m2 : String)
    (hopen : B.for_path self.path self.params = RResult.err m)
    (hfs : FB.fs_for_path root = RResult.err fsm)
    (hod : B.for_path zdb.path params2 = RResult.err m2) :
    ((ZcashWalletDb.init B self seed).1 = Outcome.panics ("Cannot access the DB!") ∧
     (ZcashWalletDb.chain_height B self).1 = Outcome.panics ("Cannot access the DB!") ∧
     (ZcashWalletDb.block_metadata B self height).1 =
       Outcome.panics ("Cannot access the DB!") ∧
     (ZcashWalletDb.block_fully_scanned B self).1 =
       Outcome.panics ("Cannot access the DB!") ∧
     (ZcashWalletDb.block_max_scanned B self).1 =
       Outcome.panics ("Cannot access the DB!") ∧
     (ZcashWalletDb.suggest_scan_ranges B self).1 =
       Outcome.panics ("Cannot access the DB!") ∧
     (ZcashWalletDb.get_target_and_anchor_heights B self (Nat.succ mc)).1 =
       Outcome.panics ("Cannot access the DB!") ∧
     (ZcashWalletDb.get_min_unspent_height B self).1 =
       Outcome.panics ("Cannot access the DB!") ∧
     (ZcashWalletDb.get_block_hash B self height).1 =
       Outcome.panics ("Cannot access the DB!") ∧
     (ZcashWalletDb.get_max_height_hash B self).1 =
       Outcome.panics ("Cannot access the DB!") ∧
     (ZcashWalletDb.get_tx_height B self txid).1 =
       Outcome.panics ("Cannot access the DB!") ∧
     (ZcashWalletDb.get_wallet_birthday B self).1 =
       Outcome.panics ("Cannot access the DB!") ∧
     (ZcashWalletDb.get_account_birthday B self account).1 =
       Outcome.panics ("Cannot access the DB!") ∧
     (ZcashWalletDb.get_current_address B self account).1 =
       Outcome.panics ("Cannot access the DB!") ∧
     (ZcashWalletDb.get_unified_full_viewing_keys B self).1 =
       Outcome.panics ("Cannot access the DB!") ∧
     (ZcashWalletDb.get_account_for_ufvk B self zufvk).1 =
       Outcome.panics ("Cannot access the DB!") ∧
     (ZcashWalletDb.is_valid_account_extfvk B self account extfvk).1 =
       Outcome.panics ("Cannot access the DB!") ∧
     (ZcashWalletDb.get_wallet_summary B self mws).1 =
       Outcome.panics ("Cannot access the DB!") ∧
     (ZcashWalletDb.get_memo B self note).1 =
       Outcome.panics ("Cannot access the DB!") ∧
     (ZcashWalletDb.get_transaction B self txid).1 =
       Outcome.panics ("Cannot access the DB!") ∧
     (ZcashWalletDb.get_transparent_receivers B self account).1 =
       Outcome.panics ("Cannot access the DB!") ∧
     (ZcashWalletDb.get_unspent_transparent_outputs B self zta height zop).1 =
       Outcome.panics ("Cannot access the DB!") ∧
     (ZcashWalletDb.get_transparent_balances B self account maxh).1 =
       Outcome.panics ("Cannot access the DB!") ∧
     (ZcashWalletDb.create_account B self seed2 bd).1 =
       Outcome.panics ("Cannot access the DB!") ∧
     (ZcashWalletDb.get_next_available_address B self account).1 =
       Outcome.panics ("Cannot access the DB!") ∧
     (ZcashWalletDb.update_chain_tip B self tip).1 =
       Outcome.panics ("Cannot access the DB!") ∧
     (ZcashWalletDb.store_decrypted_tx B self d_tx).1 =
       Outcome.panics ("Cannot access the DB!") ∧
     (ZcashWalletDb.truncate_to_height B self trh).1 =
       Outcome.panics ("Cannot access the DB!") ∧
     (ZcashWalletDb.put_received_transparent_utxo B self output).1 =
       Outcome.panics ("Cannot access the DB!") ∧
     (ZcashWalletDb.put_sapling_subtree_roots B self sidx roots).1 =
       Outcome.panics ("Cannot access the DB!")) ∧
    (ZcashFsBlockDb.for_path FB root).1 =
      Outcome.panics ("called Result::unwrap on an Err value") ∧
    (decrypt_and_store_transaction B params2 zdb tx).1 =
      Outcome.panics ("called Result::unwrap on an Err value") := by
  repeat' apply And.intro
  all_goals simp [ZcashWalletDb.init, ZcashWalletDb.chain_height,
    ZcashWalletDb.block_metadata, ZcashWalletDb.block_fully_scanned,
    ZcashWalletDb.block_max_scanned, ZcashWalletDb.suggest_scan_ranges,
    ZcashWalletDb.get_target_and_anchor_heights, ZcashWalletDb.get_min_unspent_height,
    ZcashWalletDb.get_block_hash, ZcashWalletDb.get_max_height_hash,
    ZcashWalletDb.get_tx_height, ZcashWalletDb.get_wallet_birthday,
    ZcashWalletDb.get_account_birthday, ZcashWalletDb.get_current_address,
    ZcashWalletDb.get_unified_full_viewing_keys, ZcashWalletDb.get_account_for_ufvk,
    ZcashWalletDb.is_valid_account_extfvk, ZcashWalletDb.get_wallet_summary,
    ZcashWalletDb.get_memo, ZcashWalletDb.get_transaction,
    ZcashWalletDb.get_transparent_receivers,
    ZcashWalletDb.get_unspent_transparent_outputs,
    ZcashWalletDb.get_transparent_balances, ZcashWalletDb.create_account,
    ZcashWalletDb.get_next_available_address, ZcashWalletDb.update_chain_tip,
    ZcashWalletDb.store_decrypted_tx, ZcashWalletDb.truncate_to_height,
    ZcashWalletDb.put_received_transparent_utxo,
    ZcashWalletDb.put_sapling_subtree_roots,
    ZcashFsBlockDb.for_path, decrypt_and_store_transaction, hopen, hfs, hod]

/-- C3 witness: concrete instance on backends that fail to open. -/
theorem c3_handle_open_failure_panics_witness :
    failBackend.for_path ("db") ZcashConsensusParameters.MainNetwork =
      RResult.err ("io error") ∧
    fsFailBackend.fs_for_path ("cache") = RResult.err ("io error") ∧
    (ZcashWalletDb.chain_height failBackend
      (ZcashWalletDb.mk ("db") ZcashConsensusParameters.MainNetwork)).1 =
      Outcome.panics ("Cannot access the DB!") ∧
    (ZcashFsBlockDb.for_path fsFailBackend ("cache")).1 =
      Outcome.panics ("called Result::unwrap on an Err value") :=
  ⟨rfl, rfl,
   (c3_handle_open_failure_panics failBackend
      (ZcashWalletDb.mk ("db") ZcashConsensusParameters.MainNetwork) ("io error")
      [] (ZcashBlockHeight.mk 4) 0 0 [] (ZcashAccountBirthday.mk (AccountBirthday.mk 0))
      0 0 0 [] (ZcashTxId.mk (TxId.mk 0)) (ZcashAccountId.mk 1)
      (ZcashUnifiedFullViewingKey.mk (UnifiedFullViewingKey.mk 0))
      (ZcashExtendedFullViewingKey.mk (ExtendedFullViewingKey.mk 0))
      (ZcashNoteId.mk (NoteId.mk 0))
      (ZcashTransparentAddress.mk (TransparentAddress.mk 0)) []
      (ZcashBlockHeight.mk 9) (ZcashDecryptedTransaction.mk (DecryptedTransaction.mk 0))
      (ZcashWalletTransparentOutput.mk (WalletTransparentOutput.mk 0))
      fsFailBackend ("cache") ("io error")
      ZcashConsensusParameters.TestNetwork
      (ZcashWalletDb.mk ("db") ZcashConsensusParameters.MainNetwork)
      (ZcashTransaction.mk (Transaction.mk 0)) ("io error")
      rfl rfl rfl).1.2.1,
   (c3_handle_open_failure_panics failBackend
      (ZcashWalletDb.mk ("db") ZcashConsensusParameters.MainNetwork) ("io error")
      [] (ZcashBlockHeight.mk 4) 0 0 [] (ZcashAccountBirthday.mk (AccountBirthday.mk 0))
      0 0 0 [] (ZcashTxId.mk (TxId.mk 0)) (ZcashAccountId.mk 1)
      (ZcashUnifiedFullViewingKey.mk (UnifiedFullViewingKey.mk 0))
      (ZcashExtendedFullViewingKey.mk (ExtendedFullViewingKey.mk 0))
      (ZcashNoteId.mk (NoteId.mk 0))
      (ZcashTransparentAddress.mk (TransparentAddress.mk 0)) []
      (ZcashBlockHeight.mk 9) (ZcashDecryptedTransaction.mk (DecryptedTransaction.mk 0))
      (ZcashWalletTransparentOutput.mk (WalletTransparentOutput.mk 0))
      fsFailBackend ("cache") ("io error")
      ZcashConsensusParameters.TestNetwork
      (ZcashWalletDb.mk ("db") ZcashConsensusParameters.MainNetwork)
      (ZcashTransaction.mk (Transaction.mk 0)) ("io error")
      rfl rfl rfl).2.1⟩

/-- C7: the block-metadata database adapter constructs the underlying
file-backed database exactly once, at for_path, and stores the
constructed value; every subsequent operation locks the guarding mutex
and uses that stored instance, and no operation reconstructs the database
from the path (no open event ever appears in an operation trace). -/
theorem c7_fsblockdb_single_construction
    (FB : FsBackend) (root : String) (h : FsDbHandle)
    (self : ZcashFsBlockDb) (height : ZcashBlockHeight)
    (metas : List ZcashBlockMeta) (p : String) (opt : Option BlockHeight)
    (hfs : FB.fs_for_path root = RResult.ok h)
    (hmax : FB.get_max_cached_height self.fs_block_db = RResult.ok opt) :
    ZcashFsBlockDb.for_path FB root =
      (Outcome.returns (RResult.ok (ZcashFsBlockDb.mk h)), [DbEvent.fsOpen root]) ∧
    (ZcashFsBlockDb.find_block FB self height).2 =
      [DbEvent.fsLock, DbEvent.fsOp ("find_block")] ∧
    DbEvent.fsOpen p ∉ (ZcashFsBlockDb.find_block FB self height).2 ∧
    (ZcashFsBlockDb.get_max_cached_height FB self).2 =
      [DbEvent.fsLock, DbEvent.fsOp ("get_max_cached_height")] ∧
    DbEvent.fsOpen p ∉ (ZcashFsBlockDb.get_max_cached_height FB self).2 ∧
    (ZcashFsBlockDb.get_max_cached_height FB self).1 =
      Outcome.returns (RResult.ok (opt.map ZcashBlockHeight.fromHeight)) ∧
    (ZcashFsBlockDb.write_block_metadata FB self metas).2 =
      [DbEvent.fsLock, DbEvent.fsOp ("write_block_metadata")] ∧
    DbEvent.fsOpen p ∉ (ZcashFsBlockDb.write_block_metadata FB self metas).2 := by
  refine ⟨?_, ?_, ?_, ?_, ?_, ?_, ?_, ?_⟩ <;>
  simp [ZcashFsBlockDb.for_path, ZcashFsBlockDb.find_block,
    ZcashFsBlockDb.get_max_cached_height, ZcashFsBlockDb.write_block_metadata,
    hfs, hmax]

/-- C7 witness: concrete instance on a backend that opens once. -/
theorem c7_fsblockdb_single_construction_witness :
    fsOkBackend.fs_for_path ("cache") = RResult.ok 9 ∧
    fsOkBackend.get_max_cached_height 9 = RResult.ok (some 55) ∧
    ZcashFsBlockDb.for_path fsOkBackend ("cache") =
      (Outcome.returns (RResult.ok (ZcashFsBlockDb.mk 9)), [DbEvent.fsOpen ("cache")]) :=
  ⟨rfl, rfl,
   (c7_fsblockdb_single_construction fsOkBackend ("cache") 9 (ZcashFsBlockDb.mk 9)
      (ZcashBlockHeight.mk 4) [] ("other") (some 55) rfl rfl).1⟩

/-- C4: every call to spend_main_fixed, spend_main_zip317,
shield_transparent_funds_main_fixed and shield_transparent_funds_main_zip317
opens the wallet database under the hardcoded MAIN_NETWORK (the test
variants under the hardcoded TEST_NETWORK) regardless of the params
argument, while that same params argument is passed unchanged to the
underlying wallet operation; the params argument never influences which
network the database handle is opened under. -/
theorem c4_spend_shield_hardcoded_network
    (B : WalletBackend) (zdb : ZcashWalletDb) (params : ZcashConsensusParameters)
    (prover : ZcashLocalTxProver)
    (selMF : ZcashMainFixedGreedyInputSelector) (selTF : ZcashTestFixedGreedyInputSelector)
    (selMZ : ZcashMainZip317GreedyInputSelector) (selTZ : ZcashTestZip317GreedyInputSelector)
    (usk : ZcashUnifiedSpendingKey) (request : ZcashTransactionRequest)
    (ovk : ZcashOvkPolicy) (mc : Nat) (thr : Nat) (t : NonNegativeAmount)
    (from_addrs : List ZcashTransparentAddress) (memo : ZcashMemoBytes)
    (h1 h2 : DbHandle)
    (hmain : B.for_path zdb.path MAIN_NETWORK = RResult.ok h1)
    (htest : B.for_path zdb.path TEST_NETWORK = RResult.ok h2)
    (hthr : B.nonneg_from_u64 thr = RResult.ok t) :
    ((spend_main_fixed B zdb params prover selMF usk request ovk (Nat.succ mc)).2 =
      [DbEvent.walletOpen zdb.path MAIN_NETWORK, DbEvent.walletOp ("spend")] ∧
     (spend_main_fixed B zdb params prover selMF usk request ovk (Nat.succ mc)).1 =
      Outcome.returns (((B.spend_main_fixed h1 params prover.inner selMF.inner usk.inner
        request.inner ovk.inner (Nat.succ mc)).map ZcashTxId.mk).mapErr
        (fun e => ZcashError.Message ("spending error (spend_main): " ++ e)))) ∧
    ((spend_test_fixed B zdb params prover selTF usk request ovk (Nat.succ mc)).2 =
      [DbEvent.walletOpen zdb.path TEST_NETWORK, DbEvent.walletOp ("spend")] ∧
     (spend_test_fixed B zdb params prover selTF usk request ovk (Nat.succ mc)).1 =
      Outcome.returns (((B.spend_test_fixed h2 params prover.inner selTF.inner usk.inner
        request.inner ovk.inner (Nat.succ mc)).map ZcashTxId.mk).mapErr
        (fun e => ZcashError.Message ("spending error (spend test): " ++ e)))) ∧
    ((spend_main_zip317 B zdb params prover selMZ usk request ovk (Nat.succ mc)).2 =
      [DbEvent.walletOpen zdb.path MAIN_NETWORK, DbEvent.walletOp ("spend")] ∧
     (spend_main_zip317 B zdb params prover selMZ usk request ovk (Nat.succ mc)).1 =
      Outcome.returns (((B.spend_main_zip317 h1 params prover.inner selMZ.inner usk.inner
        request.inner ovk.inner (Nat.succ mc)).map ZcashTxId.mk).mapErr
        (fun e => ZcashError.Message ("spending error (spend_main): " ++ e)))) ∧
    ((spend_test_zip317 B zdb params prover selTZ usk request ovk (Nat.succ mc)).2 =
      [DbEvent.walletOpen zdb.path TEST_NETWORK, DbEvent.walletOp ("spend")] ∧
     (spend_test_zip317 B zdb params prover selTZ usk request ovk (Nat.succ mc)).1 =
      Outcome.returns (((B.spend_test_zip317 h2 params prover.inner selTZ.inner usk.inner
        request.inner ovk.inner (Nat.succ mc)).map ZcashTxId.mk).mapErr
        (fun e => ZcashError.Message ("spending error (spend test): " ++ e)))) ∧
    ((shield_transparent_funds_main_fixed B zdb params prover selMF thr usk from_addrs
        memo (Nat.succ mc)).2 =
      [DbEvent.walletOpen zdb.path MAIN_NETWORK,
       DbEvent.walletOp ("shield_transparent_funds")] ∧
     (shield_transparent_funds_main_fixed B zdb params prover selMF thr usk from_addrs
        memo (Nat.succ mc)).1 =
      Outcome.returns (((B.shield_main_fixed h1 params prover.inner selMF.inner t
        usk.inner (from_addrs.map (fun x => x.inner)) memo.inner
        (Nat.succ mc)).map ZcashTxId.mk).mapErr
        (fun e => ZcashError.Message ("spending error: " ++ e)))) ∧
    ((shield_transparent_funds_test_fixed B zdb params prover selTF thr usk from_addrs
        memo (Nat.succ mc)).2 =
      [DbEvent.walletOpen zdb.path TEST_NETWORK,
       DbEvent.walletOp ("shield_transparent_funds")] ∧
     (shield_transparent_funds_test_fixed B zdb params prover selTF thr usk from_addrs
        memo (Nat.succ mc)).1 =
      Outcome.returns (((B.shield_test_fixed h2 params prover.inner selTF.inner t
        usk.inner (from_addrs.map (fun x => x.inner)) memo.inner
        (Nat.succ mc)).map ZcashTxId.mk).mapErr
        (fun e => ZcashError.Message ("spending error: " ++ e)))) ∧
    ((shield_transparent_funds_main_zip317 B zdb params prover selMZ thr usk from_addrs
        memo (Nat.succ mc)).2 =
      [DbEvent.walletOpen zdb.path MAIN_NETWORK,
       DbEvent.walletOp ("shield_transparent_funds")] ∧
     (shield_transparent_funds_main_zip317 B zdb params prover selMZ thr usk from_addrs
        memo (Nat.succ mc)).1 =
      Outcome.returns (((B.shield_main_zip317 h1 params prover.inner selMZ.inner t
        usk.inner (from_addrs.map (fun x => x.inner)) memo.inner
        (Nat.succ mc)).map ZcashTxId.mk).mapErr
        (fun e => ZcashError.Message ("spending error: " ++ e)))) ∧
    ((shield_transparent_funds_test_zip317 B zdb params prover selTZ thr usk from_addrs
        memo (Nat.succ mc)).2 =
      [DbEvent.walletOpen zdb.path TEST_NETWORK,
       DbEvent.walletOp ("shield_transparent_funds")] ∧
     (shield_transparent_funds_test_zip317 B zdb params prover selTZ thr usk from_addrs
        memo (Nat.succ mc)).1 =
      Outcome.returns (((B.shield_test_zip317 h2 params prover.inner selTZ.inner t
        usk.inner (from_addrs.map (fun x => x.inner)) memo.inner
        (Nat.succ mc)).map ZcashTxId.mk).mapErr
        (fun e => ZcashError.Message ("spending error: " ++ e)))) := by
  refine ⟨⟨?_, ?_⟩, ⟨?_, ?_⟩, ⟨?_, ?_⟩, ⟨?_, ?_⟩, ⟨?_, ?_⟩, ⟨?_, ?_⟩, ⟨?_, ?_⟩,
    ⟨?_, ?_⟩⟩ <;>
  simp [spend_main_fixed, spend_test_fixed, spend_main_zip317, spend_test_zip317,
    shield_transparent_funds_main_fixed, shield_transparent_funds_test_fixed,
    shield_transparent_funds_main_zip317, shield_transparent_funds_test_zip317,
    hmain, htest, hthr]

/-- C4 witness: concrete instance on a backend where both opens and the
threshold conversion succeed. -/
theorem c4_spend_shield_hardcoded_network_witness :
    okBackend.for_path ("db") MAIN_NETWORK = RResult.ok 7 ∧
    okBackend.for_path ("db") TEST_NETWORK = RResult.ok 7 ∧
    okBackend.nonneg_from_u64 5 = RResult.ok (NonNegativeAmount.mk 5) ∧
    (spend_main_fixed okBackend
      (ZcashWalletDb.mk ("db") ZcashConsensusParameters.TestNetwork)
      ZcashConsensusParameters.TestNetwork
      (ZcashLocalTxProver.mk (LocalTxProver.mk 0))
      (ZcashMainFixedGreedyInputSelector.mk (MainFixedGreedyInputSelector.mk 0))
      (ZcashUnifiedSpendingKey.mk (UnifiedSpendingKey.mk 0))
      (ZcashTransactionRequest.mk (TransactionRequest.mk 0))
      (ZcashOvkPolicy.mk (OvkPolicy.mk 0)) 1).2 =
      [DbEvent.walletOpen ("db") MAIN_NETWORK, DbEvent.walletOp ("spend")] :=
  ⟨rfl, rfl, rfl,
   (c4_spend_shield_hardcoded_network okBackend
      (ZcashWalletDb.mk ("db") ZcashConsensusParameters.TestNetwork)
      ZcashConsensusParameters.TestNetwork
      (ZcashLocalTxProver.mk (LocalTxProver.mk 0))
      (ZcashMainFixedGreedyInputSelector.mk (MainFixedGreedyInputSelector.mk 0))
      (ZcashTestFixedGreedyInputSelector.mk (TestFixedGreedyInputSelector.mk 0))
      (ZcashMainZip317GreedyInputSelector.mk (MainZip317GreedyInputSelector.mk 0))
      (ZcashTestZip317GreedyInputSelector.mk (TestZip317GreedyInputSelector.mk 0))
      (ZcashUnifiedSpendingKey.mk (UnifiedSpendingKey.mk 0))
      (ZcashTransactionRequest.mk (TransactionRequest.mk 0))
      (ZcashOvkPolicy.mk (OvkPolicy.mk 0)) 0 5 (NonNegativeAmount.mk 5)
      [] (ZcashMemoBytes.mk (MemoBytes.mk 0)) 7 7 rfl rfl rfl).1.1⟩

/-- C8 counterexample: ZcashWalletDb::get_wallet_summary takes a
min_confirmations u32 parameter and does not panic when it equals zero;
the value is forwarded to the underlying operation without any NonZeroU32
conversion, refuting the claim quantified over every operation that takes
a min_confirmations parameter. -/
theorem c8_counterexample_get_wallet_summary_zero :
    (ZcashWalletDb.get_wallet_summary okBackend
      (ZcashWalletDb.mk ("db") ZcashConsensusParameters.MainNetwork) 0).1.isPanic =
      false ∧
    (ZcashWalletDb.get_wallet_summary okBackend
      (ZcashWalletDb.mk ("db") ZcashConsensusParameters.MainNetwork) 0).1 =
      Outcome.returns (RResult.ok (some (ZcashWalletSummary.mk (WalletSummary.mk 7)))) := by
  decide

/-- C8 amended: the operations that convert min_confirmations with
NonZeroU32::new(..).unwrap() — ZcashWalletDb::get_target_and_anchor_heights,
the four spend functions and the four shield_transparent_funds functions —
panic when min_confirmations equals zero, and under the precondition
min_confirmations at least one that unwrap is unreachable and the
operation proceeds without panicking; get_wallet_summary, which also takes
a min_confirmations u32, forwards the value without conversion and is
excluded. -/
theorem c8_amended_nonzero_unwrap
    (B : WalletBackend) (self zdb : ZcashWalletDb) (params : ZcashConsensusParameters)
    (prover : ZcashLocalTxProver)
    (selMF : ZcashMainFixedGreedyInputSelector) (selTF : ZcashTestFixedGreedyInputSelector)
    (selMZ : ZcashMainZip317GreedyInputSelector) (selTZ : ZcashTestZip317GreedyInputSelector)
    (usk : ZcashUnifiedSpendingKey) (request : ZcashTransactionRequest)
    (ovk : ZcashOvkPolicy) (mc : Nat) (thr : Nat) (t : NonNegativeAmount)
    (from_addrs : List ZcashTransparentAddress) (memo : ZcashMemoBytes)
    (h0 h1 h2 : DbHandle)
    (hself : B.for_path self.path self.params = RResult.ok h0)
    (hmain : B.for_path zdb.path MAIN_NETWORK = RResult.ok h1)
    (htest : B.for_path zdb.path TEST_NETWORK = RResult.ok h2)
    (hthr : B.nonneg_from_u64 thr = RResult.ok t) :
    (ZcashWalletDb.get_target_and_anchor_heights B self 0).1 =
      Outcome.panics ("called Option::unwrap on a None value") ∧
    (ZcashWalletDb.get_target_and_anchor_heights B self (Nat.succ mc)).1.isPanic =
      false ∧
    (spend_main_fixed B zdb params prover selMF usk request ovk 0).1 =
      Outcome.panics ("called Option::unwrap on a None value") ∧
    (spend_main_fixed B zdb params prover selMF usk request ovk
      (Nat.succ mc)).1.isPanic = false ∧
    (spend_test_fixed B zdb params prover selTF usk request ovk 0).1 =
      Outcome.panics ("called Option::unwrap on a None value") ∧
    (spend_test_fixed B zdb params prover selTF usk request ovk
      (Nat.succ mc)).1.isPanic = false ∧
    (spend_main_zip317 B zdb params prover selMZ usk request ovk 0).1 =
      Outcome.panics ("called Option::unwrap on a None value") ∧
    (spend_main_zip317 B zdb params prover selMZ usk request ovk
      (Nat.succ mc)).1.isPanic = false ∧
    (spend_test_zip317 B zdb params prover selTZ usk request ovk 0).1 =
      Outcome.panics ("called Option::unwrap on a None value") ∧
    (spend_test_zip317 B zdb params prover selTZ usk request ovk
      (Nat.succ mc)).1.isPanic = false ∧
    (shield_transparent_funds_main_fixed B zdb params prover selMF thr usk from_addrs
      memo 0).1 = Outcome.panics ("called Option::unwrap on a None value") ∧
    (shield_transparent_funds_main_fixed B zdb params prover selMF thr usk from_addrs
      memo (Nat.succ mc)).1.isPanic = false ∧
    (shield_transparent_funds_test_fixed B zdb params prover selTF thr usk from_addrs
      memo 0).1 = Outcome.panics ("called Option::unwrap on a None value") ∧
    (shield_transparent_funds_test_fixed B zdb params prover selTF thr usk from_addrs
      memo (Nat.succ mc)).1.isPanic = false ∧
    (shield_transparent_funds_main_zip317 B zdb params prover selMZ thr usk from_addrs
      memo 0).1 = Outcome.panics ("called Option::unwrap on a None value") ∧
    (shield_transparent_funds_main_zip317 B zdb params prover selMZ thr usk from_addrs
      memo (Nat.succ mc)).1.isPanic = false ∧
    (shield_transparent_funds_test_zip317 B zdb params prover selTZ thr usk from_addrs
      memo 0).1 = Outcome.panics ("called Option::unwrap on a None value") ∧
    (shield_transparent_funds_test_zip317 B zdb params prover selTZ thr usk from_addrs
      memo (Nat.succ mc)).1.isPanic = false := by
  constructor
  · simp [ZcashWalletDb.get_target_and_anchor_heights]
  constructor
  · simp only [ZcashWalletDb.get_target_and_anchor_heights, hself]
    split <;> rfl
  refine ⟨?_, ?_, ?_, ?_, ?_, ?_, ?_, ?_, ?_, ?_, ?_, ?_, ?_, ?_, ?_, ?_⟩ <;>
  simp [spend_main_fixed, spend_test_fixed,
    spend_main_zip317, spend_test_zip317, shield_transparent_funds_main_fixed,
    shield_transparent_funds_test_fixed, shield_transparent_funds_main_zip317,
    shield_transparent_funds_test_zip317, hmain, htest, hthr,
    Outcome.isPanic]

/-- C8 witness: concrete instance showing the panic at zero and the
normal return at one. -/
theorem c8_amended_nonzero_unwrap_witness :
    okBackend.for_path ("db") ZcashConsensusParameters.MainNetwork = RResult.ok 7 ∧
    okBackend.nonneg_from_u64 5 = RResult.ok (NonNegativeAmount.mk 5) ∧
    (ZcashWalletDb.get_target_and_anchor_heights okBackend
      (ZcashWalletDb.mk ("db") ZcashConsensusParameters.MainNetwork) 0).1 =
      Outcome.panics ("called Option::unwrap on a None value") ∧
    (ZcashWalletDb.get_target_and_anchor_heights okBackend
      (ZcashWalletDb.mk ("db") ZcashConsensusParameters.MainNetwork) 1).1.isPanic =
      false :=
  ⟨rfl, rfl,
   (c8_amended_nonzero_unwrap okBackend
      (ZcashWalletDb.mk ("db") ZcashConsensusParameters.MainNetwork)
      (ZcashWalletDb.mk ("db") ZcashConsensusParameters.MainNetwork)
      ZcashConsensusParameters.TestNetwork
      (ZcashLocalTxProver.mk (LocalTxProver.mk 0))
      (ZcashMainFixedGreedyInputSelector.mk (MainFixedGreedyInputSelector.mk 0))
      (ZcashTestFixedGreedyInputSelector.mk (TestFixedGreedyInputSelector.mk 0))
      (ZcashMainZip317GreedyInputSelector.mk (MainZip317GreedyInputSelector.mk 0))
      (ZcashTestZip317GreedyInputSelector.mk (TestZip317GreedyInputSelector.mk 0))
      (ZcashUnifiedSpendingKey.mk (UnifiedSpendingKey.mk 0))
      (ZcashTransactionRequest.mk (TransactionRequest.mk 0))
      (ZcashOvkPolicy.mk (OvkPolicy.mk 0)) 0 5 (NonNegativeAmount.mk 5)
      [] (ZcashMemoBytes.mk (MemoBytes.mk 0)) 7 7 7 rfl rfl rfl rfl).1,
   (c8_amended_nonzero_unwrap okBackend
      (ZcashWalletDb.mk ("db") ZcashConsensusParameters.MainNetwork)
      (ZcashWalletDb.mk ("db") ZcashConsensusParameters.MainNetwork)
      ZcashConsensusParameters.TestNetwork
      (ZcashLocalTxProver.mk (LocalTxProver.mk 0))
      (ZcashMainFixedGreedyInputSelector.mk (MainFixedGreedyInputSelector.mk 0))
      (ZcashTestFixedGreedyInputSelector.mk (TestFixedGreedyInputSelector.mk 0))
      (ZcashMainZip317GreedyInputSelector.mk (MainZip317GreedyInputSelector.mk 0))
      (ZcashTestZip317GreedyInputSelector.mk (TestZip317GreedyInputSelector.mk 0))
      (ZcashUnifiedSpendingKey.mk (UnifiedSpendingKey.mk 0))
      (ZcashTransactionRequest.mk (TransactionRequest.mk 0))
      (ZcashOvkPolicy.mk (OvkPolicy.mk 0)) 0 5 (NonNegativeAmount.mk 5)
      [] (ZcashMemoBytes.mk (MemoBytes.mk 0)) 7 7 7 rfl rfl rfl rfl).2.1⟩

/-- C2 counterexample: ZcashDiversifiableFullViewingKey::from_bytes, on a
128-byte input that the underlying decoder rejects, returns the
structureless ZcashError::Unknown, which is not the message-carrying
error value. -/
theorem c2_counterexample_from_bytes_unknown :
    ZcashDiversifiableFullViewingKey.from_bytes utils128 rejectAllKeysLib
      (List.replicate 128 0) = RResult.err ZcashError.Unknown ∧
    ZcashError.isMessage ZcashError.Unknown = false := by
  refine ⟨?_, rfl⟩
  simp [ZcashDiversifiableFullViewingKey.from_bytes, utils128, rejectAllKeysLib]

/-- C2 amended: every ZcashWalletDb and ZcashFsBlockDb database
operation, decrypt_and_store_transaction, the four spend functions and
the four shield_transparent_funds functions return, whenever they return
an error, the single message-carrying value ZcashError::Message holding a
formatted string of the underlying error; the one exception is
ZcashDiversifiableFullViewingKey::from_bytes, which returns
ZcashError::Unknown when the byte cast succeeds but the underlying
decoder rejects the encoding. -/
theorem c2_amended_errors_are_message
    (B : WalletBackend) (self : ZcashWalletDb)
    (seed : List Nat) (height : ZcashBlockHeight) (mc mws : Nat)
    (seed2 : List Nat) (bd : ZcashAccountBirthday) (tip trh sidx : Nat)
    (roots : List ZcashCommitmentTreeRoot)
    (FB : FsBackend) (fself : ZcashFsBlockDb) (fheight : ZcashBlockHeight)
    (metas : List ZcashBlockMeta)
    (params2 : ZcashConsensusParameters) (zdb : ZcashWalletDb) (tx : ZcashTransaction)
    (prover : ZcashLocalTxProver)
    (selMF : ZcashMainFixedGreedyInputSelector) (selTF : ZcashTestFixedGreedyInputSelector)
    (selMZ : ZcashMainZip317GreedyInputSelector) (selTZ : ZcashTestZip317GreedyInputSelector)
    (usk : ZcashUnifiedSpendingKey) (request : ZcashTransactionRequest)
    (ovk : ZcashOvkPolicy) (thr : Nat)
    (from_addrs : List ZcashTransparentAddress) (memo : ZcashMemoBytes)
    (U : Utils) (L : SaplingKeysLib) (bytes arr : List Nat)
    (txid : ZcashTxId) (account : ZcashAccountId)
    (zufvk : ZcashUnifiedFullViewingKey) (extfvk : ZcashExtendedFullViewingKey)
    (note : ZcashNoteId) (zta : ZcashTransparentAddress) (zop : List ZcashOutPoint)
    (maxh : ZcashBlockHeight) (d_tx : ZcashDecryptedTransaction)
    (output : ZcashWalletTransparentOutput)
    (e1 e2 e3 e4 e5 e6 e7 e8 e9 e10 e11 e12 e13 e14 e15 e16 e17 e18 e19 e20 e21
      e22 e23 e24 e25 e26 e27 e28 e29 e30 e31 e32 e33 e34 e35 e36 e37 e38 e39 e40
      e41 e42 e43 : ZcashError) :
    ((ZcashWalletDb.chain_height B self).1 = Outcome.returns (RResult.err e1) →
      e1.isMessage = true) ∧
    ((ZcashWalletDb.init B self seed).1 = Outcome.returns (RResult.err e2) →
      e2.isMessage = true) ∧
    ((ZcashWalletDb.block_metadata B self height).1 = Outcome.returns (RResult.err e3) →
      e3.isMessage = true) ∧
    ((ZcashWalletDb.get_target_and_anchor_heights B self (Nat.succ mc)).1 =
        Outcome.returns (RResult.err e4) → e4.isMessage = true) ∧
    ((ZcashWalletDb.get_wallet_summary B self mws).1 = Outcome.returns (RResult.err e5) →
      e5.isMessage = true) ∧
    ((ZcashWalletDb.create_account B self seed2 bd).1 = Outcome.returns (RResult.err e6) →
      e6.isMessage = true) ∧
    ((ZcashWalletDb.update_chain_tip B self tip).1 = Outcome.returns (RResult.err e7) →
      e7.isMessage = true) ∧
    ((ZcashWalletDb.truncate_to_height B self trh).1 = Outcome.returns (RResult.err e8) →
      e8.isMessage = true) ∧
    ((ZcashWalletDb.put_sapling_subtree_roots B self sidx roots).1 =
        Outcome.returns (RResult.err e9) → e9.isMessage = true) ∧
    ((ZcashFsBlockDb.find_block FB fself fheight).1 = Outcome.returns (RResult.err e10) →
      e10.isMessage = true) ∧
    ((ZcashFsBlockDb.get_max_cached_height FB fself).1 =
        Outcome.returns (RResult.err e11) → e11.isMessage = true) ∧
    ((ZcashFsBlockDb.write_block_metadata FB fself metas).1 =
        Outcome.returns (RResult.err e12) → e12.isMessage = true) ∧
    ((decrypt_and_store_transaction B params2 zdb tx).1 =
        Outcome.returns (RResult.err e13) → e13.isMessage = true) ∧
    ((spend_main_fixed B zdb params2 prover selMF usk request ovk (Nat.succ mc)).1 =
        Outcome.returns (RResult.err e14) → e14.isMessage = true) ∧
    ((spend_test_fixed B zdb params2 prover selTF usk request ovk (Nat.succ mc)).1 =
        Outcome.returns (RResult.err e15) → e15.isMessage = true) ∧
    ((spend_main_zip317 B zdb params2 prover selMZ usk request ovk (Nat.succ mc)).1 =
        Outcome.returns (RResult.err e16) → e16.isMessage = true) ∧
    ((spend_test_zip317 B zdb params2 prover selTZ usk request ovk (Nat.succ mc)).1 =
        Outcome.returns (RResult.err e17) → e17.isMessage = true) ∧
    ((shield_transparent_funds_main_fixed B zdb params2 prover selMF thr usk from_addrs
        memo (Nat.succ mc)).1 = Outcome.returns (RResult.err e18) →
      e18.isMessage = true) ∧
    ((shield_transparent_funds_test_fixed B zdb params2 prover selTF thr usk from_addrs
        memo (Nat.succ mc)).1 = Outcome.returns (RResult.err e19) →
      e19.isMessage = true) ∧
    ((shield_transparent_funds_main_zip317 B zdb params2 prover selMZ thr usk from_addrs
        memo (Nat.succ mc)).1 = Outcome.returns (RResult.err e20) →
      e20.isMessage = true) ∧
    ((shield_transparent_funds_test_zip317 B zdb params2 prover selTZ thr usk from_addrs
        memo (Nat.succ mc)).1 = Outcome.returns (RResult.err e21) →
      e21.isMessage = true) ∧
    ((ZcashWalletDb.block_fully_scanned B self).1 = Outcome.returns (RResult.err e23) →
      e23.isMessage = true) ∧
    ((ZcashWalletDb.block_max_scanned B self).1 = Outcome.returns (RResult.err e24) →
      e24.isMessage = true) ∧
    ((ZcashWalletDb.suggest_scan_ranges B self).1 = Outcome.returns (RResult.err e25) →
      e25.isMessage = true) ∧
    ((ZcashWalletDb.get_min_unspent_height B self).1 =
        Outcome.returns (RResult.err e26) → e26.isMessage = true) ∧
    ((ZcashWalletDb.get_block_hash B self height).1 =
        Outcome.returns (RResult.err e27) → e27.isMessage = true) ∧
    ((ZcashWalletDb.get_max_height_hash B self).1 =
        Outcome.returns (RResult.err e28) → e28.isMessage = true) ∧
    ((ZcashWalletDb.get_tx_height B self txid).1 = Outcome.returns (RResult.err e29) →
      e29.isMessage = true) ∧
    ((ZcashWalletDb.get_wallet_birthday B self).1 =
        Outcome.returns (RResult.err e30) → e30.isMessage = true) ∧
    ((ZcashWalletDb.get_account_birthday B self account).1 =
        Outcome.returns (RResult.err e31) → e31.isMessage = true) ∧
    ((ZcashWalletDb.get_current_address B self account).1 =
        Outcome.returns (RResult.err e32) → e32.isMessage = true) ∧
    ((ZcashWalletDb.get_unified_full_viewing_keys B self).1 =
        Outcome.returns (RResult.err e33) → e33.isMessage = true) ∧
    ((ZcashWalletDb.get_account_for_ufvk B self zufvk).1 =
        Outcome.returns (RResult.err e34) → e34.isMessage = true) ∧
    ((ZcashWalletDb.is_valid_account_extfvk B self account extfvk).1 =
        Outcome.returns (RResult.err e35) → e35.isMessage = true) ∧
    ((ZcashWalletDb.get_memo B self note).1 = Outcome.returns (RResult.err e36) →
      e36.isMessage = true) ∧
    ((ZcashWalletDb.get_transaction B self txid).1 =
        Outcome.returns (RResult.err e37) → e37.isMessage = true) ∧
    ((ZcashWalletDb.get_transparent_receivers B self account).1 =
        Outcome.returns (RResult.err e38) → e38.isMessage = true) ∧
    ((ZcashWalletDb.get_unspent_transparent_outputs B self zta height zop).1 =
        Outcome.returns (RResult.err e39) → e39.isMessage = true) ∧
    ((ZcashWalletDb.get_transparent_balances B self account maxh).1 =
        Outcome.returns (RResult.err e40) → e40.isMessage = true) ∧
    ((ZcashWalletDb.get_next_available_address B self account).1 =
        Outcome.returns (RResult.err e41) → e41.isMessage = true) ∧
    ((ZcashWalletDb.store_decrypted_tx B self d_tx).1 =
        Outcome.returns (RResult.err e42) → e42.isMessage = true) ∧
    ((ZcashWalletDb.put_received_transparent_utxo B self output).1 =
        Outcome.returns (RResult.err e43) → e43.isMessage = true) ∧
    (U.cast_slice bytes = RResult.ok arr →
      ZcashDiversifiableFullViewingKey.from_bytes U L bytes = RResult.err e22 →
      e22 = ZcashError.Unknown) := by
  refine ⟨?_, ?_, ?_, ?_, ?_, ?_, ?_, ?_, ?_, ?_, ?_, ?_, ?_, ?_, ?_, ?_, ?_, ?_, ?_,
    ?_, ?_, ?_, ?_, ?_, ?_, ?_, ?_, ?_, ?_, ?_, ?_, ?_, ?_, ?_, ?_, ?_, ?_, ?_, ?_,
    ?_, ?_, ?_, ?_⟩
  · intro hE
    cases hfp : B.for_path self.path self.params with
    | err m => simp [ZcashWalletDb.chain_height, hfp] at hE
    | ok db =>
      cases hop : B.chain_height db with
      | ok v => simp [ZcashWalletDb.chain_height, hfp, hop, RResult.map,
          RResult.mapErr] at hE
      | err s =>
        simp [ZcashWalletDb.chain_height, hfp, hop, RResult.map, RResult.mapErr,
          cast_err] at hE
        simp [← hE, ZcashError.isMessage]
  · intro hE
    cases hfp : B.for_path self.path self.params with
    | err m => simp [ZcashWalletDb.init, hfp] at hE
    | ok db =>
      cases hop : B.init_wallet_db db (some seed) with
      | ok v => simp [ZcashWalletDb.init, hfp, hop, RResult.mapErr] at hE
      | err s =>
        simp [ZcashWalletDb.init, hfp, hop, RResult.mapErr] at hE
        simp [← hE, ZcashError.isMessage]
  · intro hE
    cases hfp : B.for_path self.path self.params with
    | err m => simp [ZcashWalletDb.block_metadata, hfp] at hE
    | ok db =>
      cases hop : B.block_metadata db height.toHeight with
      | ok v => simp [ZcashWalletDb.block_metadata, hfp, hop, RResult.map,
          RResult.mapErr] at hE
      | err s =>
        simp [ZcashWalletDb.block_metadata, hfp, hop, RResult.map, RResult.mapErr,
          cast_err] at hE
        simp [← hE, ZcashError.isMessage]
  · intro hE
    cases hfp : B.for_path self.path self.params with
    | err m => simp [ZcashWalletDb.get_target_and_anchor_heights, hfp] at hE
    | ok db =>
      cases hop : B.get_target_and_anchor_heights db (Nat.succ mc) with
      | ok v =>
        cases v with
        | none => simp [ZcashWalletDb.get_target_and_anchor_heights, hfp, hop] at hE
        | some p =>
          simp [ZcashWalletDb.get_target_and_anchor_heights, hfp, hop] at hE
      | err s =>
        simp [ZcashWalletDb.get_target_and_anchor_heights, hfp, hop] at hE
        simp [← hE, ZcashError.isMessage]
  · intro hE
    cases hfp : B.for_path self.path self.params with
    | err m => simp [ZcashWalletDb.get_wallet_summary, hfp] at hE
    | ok db =>
      cases hop : B.get_wallet_summary db mws with
      | ok v => simp [ZcashWalletDb.get_wallet_summary, hfp, hop, RResult.map,
          RResult.mapErr] at hE
      | err s =>
        simp [ZcashWalletDb.get_wallet_summary, hfp, hop, RResult.map, RResult.mapErr,
          cast_err] at hE
        simp [← hE, ZcashError.isMessage]
  · intro hE
    cases hfp : B.for_path self.path self.params with
    | err m => simp [ZcashWalletDb.create_account, hfp] at hE
    | ok db =>
      cases hop : B.create_account db seed2 bd.inner with
      | ok v => simp [ZcashWalletDb.create_account, hfp, hop, RResult.map,
          RResult.mapErr] at hE
      | err s =>
        simp [ZcashWalletDb.create_account, hfp, hop, RResult.map, RResult.mapErr,
          cast_err] at hE
        simp [← hE, ZcashError.isMessage]
  · intro hE
    cases hfp : B.for_path self.path self.params with
    | err m => simp [ZcashWalletDb.update_chain_tip, hfp] at hE
    | ok db =>
      cases hop : B.update_chain_tip db ((ZcashBlockHeight.new tip).toHeight) with
      | ok v => simp [ZcashWalletDb.update_chain_tip, hfp, hop, RResult.mapErr] at hE
      | err s =>
        simp [ZcashWalletDb.update_chain_tip, hfp, hop, RResult.mapErr, cast_err] at hE
        simp [← hE, ZcashError.isMessage]
  · intro hE
    cases hfp : B.for_path self.path self.params with
    | err m => simp [ZcashWalletDb.truncate_to_height, hfp] at hE
    | ok db =>
      cases hop : B.truncate_to_height db ((ZcashBlockHeight.new trh).toHeight) with
      | ok v => simp [ZcashWalletDb.truncate_to_height, hfp, hop, RResult.mapErr] at hE
      | err s =>
        simp [ZcashWalletDb.truncate_to_height, hfp, hop, RResult.mapErr, cast_err] at hE
        simp [← hE, ZcashError.isMessage]
  · intro hE
    cases hfp : B.for_path self.path self.params with
    | err m => simp [ZcashWalletDb.put_sapling_subtree_roots, hfp] at hE
    | ok db =>
      cases hop : B.put_sapling_subtree_roots db sidx (roots.map (fun x => x.inner)) with
      | ok v => simp [ZcashWalletDb.put_sapling_subtree_roots, hfp, hop,
          RResult.mapErr] at hE
      | err s =>
        simp [ZcashWalletDb.put_sapling_subtree_roots, hfp, hop, RResult.mapErr] at hE
        simp [← hE, ZcashError.isMessage]
  · intro hE
    cases hop : FB.find_block fself.fs_block_db fheight.toHeight with
    | ok v => simp [ZcashFsBlockDb.find_block, hop] at hE
    | err s =>
      simp [ZcashFsBlockDb.find_block, hop] at hE
      simp [← hE, ZcashError.isMessage]
  · intro hE
    cases hop : FB.get_max_cached_height fself.fs_block_db with
    | ok v => simp [ZcashFsBlockDb.get_max_cached_height, hop] at hE
    | err s =>
      simp [ZcashFsBlockDb.get_max_cached_height, hop] at hE
      simp [← hE, ZcashError.isMessage]
  · intro hE
    cases hop : FB.write_block_metadata fself.fs_block_db
        (metas.map (fun x => x.inner)) with
    | ok v => simp [ZcashFsBlockDb.write_block_metadata, hop, RResult.map,
        RResult.mapErr] at hE
    | err s =>
      simp [ZcashFsBlockDb.write_block_metadata, hop, RResult.map, RResult.mapErr] at hE
      simp [← hE, ZcashError.isMessage]
  · intro hE
    cases hfp : B.for_path zdb.path params2 with
    | err m => simp [decrypt_and_store_transaction, hfp] at hE
    | ok db =>
      cases hop : B.decrypt_and_store_transaction params2 db tx.inner with
      | ok v => simp [decrypt_and_store_transaction, hfp, hop, RResult.mapErr] at hE
      | err s =>
        simp [decrypt_and_store_transaction, hfp, hop, RResult.mapErr] at hE
        simp [← hE, ZcashError.isMessage]
  · intro hE
    cases hfp : B.for_path zdb.path MAIN_NETWORK with
    | err m => simp [spend_main_fixed, hfp] at hE
    | ok db =>
      cases hop : B.spend_main_fixed db params2 prover.inner selMF.inner usk.inner
          request.inner ovk.inner (Nat.succ mc) with
      | ok v => simp [spend_main_fixed, hfp, hop, RResult.map, RResult.mapErr] at hE
      | err s =>
        simp [spend_main_fixed, hfp, hop, RResult.map, RResult.mapErr] at hE
        simp [← hE, ZcashError.isMessage]
  · intro hE
    cases hfp : B.for_path zdb.path TEST_NETWORK with
    | err m => simp [spend_test_fixed, hfp] at hE
    | ok db =>
      cases hop : B.spend_test_fixed db params2 prover.inner selTF.inner usk.inner
          request.inner ovk.inner (Nat.succ mc) with
      | ok v => simp [spend_test_fixed, hfp, hop, RResult.map, RResult.mapErr] at hE
      | err s =>
        simp [spend_test_fixed, hfp, hop, RResult.map, RResult.mapErr] at hE
        simp [← hE, ZcashError.isMessage]
  · intro hE
    cases hfp : B.for_path zdb.path MAIN_NETWORK with
    | err m => simp [spend_main_zip317, hfp] at hE
    | ok db =>
      cases hop : B.spend_main_zip317 db params2 prover.inner selMZ.inner usk.inner
          request.inner ovk.inner (Nat.succ mc) with
      | ok v => simp [spend_main_zip317, hfp, hop, RResult.map, RResult.mapErr] at hE
      | err s =>
        simp [spend_main_zip317, hfp, hop, RResult.map, RResult.mapErr] at hE
        simp [← hE, ZcashError.isMessage]
  · intro hE
    cases hfp : B.for_path zdb.path TEST_NETWORK with
    | err m => simp [spend_test_zip317, hfp] at hE
    | ok db =>
      cases hop : B.spend_test_zip317 db params2 prover.inner selTZ.inner usk.inner
          request.inner ovk.inner (Nat.succ mc) with
      | ok v => simp [spend_test_zip317, hfp, hop, RResult.map, RResult.mapErr] at hE
      | err s =>
        simp [spend_test_zip317, hfp, hop, RResult.map, RResult.mapErr] at hE
        simp [← hE, ZcashError.isMessage]
  · intro hE
    cases hth : B.nonneg_from_u64 thr with
    | err m => simp [shield_transparent_funds_main_fixed, hth] at hE
    | ok t =>
      cases hfp : B.for_path zdb.path MAIN_NETWORK with
      | err m => simp [shield_transparent_funds_main_fixed, hth, hfp] at hE
      | ok db =>
        cases hop : B.shield_main_fixed db params2 prover.inner selMF.inner t usk.inner
            (from_addrs.map (fun x => x.inner)) memo.inner (Nat.succ mc) with
        | ok v => simp [shield_transparent_funds_main_fixed, hth, hfp, hop,
            RResult.map, RResult.mapErr] at hE
        | err s =>
          simp [shield_transparent_funds_main_fixed, hth, hfp, hop, RResult.map,
            RResult.mapErr] at hE
          simp [← hE, ZcashError.isMessage]
  · intro hE
    cases hth : B.nonneg_from_u64 thr with
    | err m => simp [shield_transparent_funds_test_fixed, hth] at hE
    | ok t =>
      cases hfp : B.for_path zdb.path TEST_NETWORK with
      | err m => simp [shield_transparent_funds_test_fixed, hth, hfp] at hE
      | ok db =>
        cases hop : B.shield_test_fixed db params2 prover.inner selTF.inner t usk.inner
            (from_addrs.map (fun x => x.inner)) memo.inner (Nat.succ mc) with
        | ok v => simp [shield_transparent_funds_test_fixed, hth, hfp, hop,
            RResult.map, RResult.mapErr] at hE
        | err s =>
          simp [shield_transparent_funds_test_fixed, hth, hfp, hop, RResult.map,
            RResult.mapErr] at hE
          simp [← hE, ZcashError.isMessage]
  · intro hE
    cases hth : B.nonneg_from_u64 thr with
    | err m => simp [shield_transparent_funds_main_zip317, hth] at hE
    | ok t =>
      cases hfp : B.for_path zdb.path MAIN_NETWORK with
      | err m => simp [shield_transparent_funds_main_zip317, hth, hfp] at hE
      | ok db =>
        cases hop : B.shield_main_zip317 db params2 prover.inner selMZ.inner t usk.inner
            (from_addrs.map (fun x => x.inner)) memo.inner (Nat.succ mc) with
        | ok v => simp [shield_transparent_funds_main_zip317, hth, hfp, hop,
            RResult.map, RResult.mapErr] at hE
        | err s =>
          simp [shield_transparent_funds_main_zip317, hth, hfp, hop, RResult.map,
            RResult.mapErr] at hE
          simp [← hE, ZcashError.isMessage]
  · intro hE
    cases hth : B.nonneg_from_u64 thr with
    | err m => simp [shield_transparent_funds_test_zip317, hth] at hE
    | ok t =>
      cases hfp : B.for_path zdb.path TEST_NETWORK with
      | err m => simp [shield_transparent_funds_test_zip317, hth, hfp] at hE
      | ok db =>
        cases hop : B.shield_test_zip317 db params2 prover.inner selTZ.inner t usk.inner
            (from_addrs.map (fun x => x.inner)) memo.inner (Nat.succ mc) with
        | ok v => simp [shield_transparent_funds_test_zip317, hth, hfp, hop,
            RResult.map, RResult.mapErr] at hE
        | err s =>
          simp [shield_transparent_funds_test_zip317, hth, hfp, hop, RResult.map,
            RResult.mapErr] at hE
          simp [← hE, ZcashError.isMessage]
  · intro hE
    cases hfp : B.for_path self.path self.params with
    | err m => simp [ZcashWalletDb.block_fully_scanned, hfp] at hE
    | ok db =>
      cases hop : B.block_fully_scanned db with
      | ok v => simp [ZcashWalletDb.block_fully_scanned, hfp, hop, RResult.map,
          RResult.mapErr] at hE
      | err s =>
        simp [ZcashWalletDb.block_fully_scanned, hfp, hop, RResult.map,
          RResult.mapErr, cast_err] at hE
        simp [← hE, ZcashError.isMessage]
  · intro hE
    cases hfp : B.for_path self.path self.params with
    | err m => simp [ZcashWalletDb.block_max_scanned, hfp] at hE
    | ok db =>
      cases hop : B.block_max_scanned db with
      | ok v => simp [ZcashWalletDb.block_max_scanned, hfp, hop, RResult.map,
          RResult.mapErr] at hE
      | err s =>
        simp [ZcashWalletDb.block_max_scanned, hfp, hop, RResult.map,
          RResult.mapErr, cast_err] at hE
        simp [← hE, ZcashError.isMessage]
  · intro hE
    cases hfp : B.for_path self.path self.params with
    | err m => simp [ZcashWalletDb.suggest_scan_ranges, hfp] at hE
    | ok db =>
      cases hop : B.suggest_scan_ranges db with
      | ok v => simp [ZcashWalletDb.suggest_scan_ranges, hfp, hop, RResult.map,
          RResult.mapErr] at hE
      | err s =>
        simp [ZcashWalletDb.suggest_scan_ranges, hfp, hop, RResult.map,
          RResult.mapErr, cast_err] at hE
        simp [← hE, ZcashError.isMessage]
  · intro hE
    cases hfp : B.for_path self.path self.params with
    | err m => simp [ZcashWalletDb.get_min_unspent_height, hfp] at hE
    | ok db =>
      cases hop : B.get_min_unspent_height db with
      | ok v => simp [ZcashWalletDb.get_min_unspent_height, hfp, hop, RResult.map,
          RResult.mapErr] at hE
      | err s =>
        simp [ZcashWalletDb.get_min_unspent_height, hfp, hop, RResult.map,
          RResult.mapErr, cast_err] at hE
        simp [← hE, ZcashError.isMessage]
  · intro hE
    cases hfp : B.for_path self.path self.params with
    | err m => simp [ZcashWalletDb.get_block_hash, hfp] at hE
    | ok db =>
      cases hop : B.get_block_hash db height.toHeight with
      | ok v => simp [ZcashWalletDb.get_block_hash, hfp, hop, RResult.map,
          RResult.mapErr] at hE
      | err s =>
        simp [ZcashWalletDb.get_block_hash, hfp, hop, RResult.map,
          RResult.mapErr, cast_err] at hE
        simp [← hE, ZcashError.isMessage]
  · intro hE
    cases hfp : B.for_path self.path self.params with
    | err m => simp [ZcashWalletDb.get_max_height_hash, hfp] at hE
    | ok db =>
      cases hop : B.get_max_height_hash db with
      | ok v => simp [ZcashWalletDb.get_max_height_hash, hfp, hop, RResult.map,
          RResult.mapErr] at hE
      | err s =>
        simp [ZcashWalletDb.get_max_height_hash, hfp, hop, RResult.map,
          RResult.mapErr, cast_err] at hE
        simp [← hE, ZcashError.isMessage]
  · intro hE
    cases hfp : B.for_path self.path self.params with
    | err m => simp [ZcashWalletDb.get_tx_height, hfp] at hE
    | ok db =>
      cases hop : B.get_tx_height db txid.inner with
      | ok v => simp [ZcashWalletDb.get_tx_height, hfp, hop, RResult.map,
          RResult.mapErr] at hE
      | err s =>
        simp [ZcashWalletDb.get_tx_height, hfp, hop, RResult.map,
          RResult.mapErr, cast_err] at hE
        simp [← hE, ZcashError.isMessage]
  · intro hE
    cases hfp : B.for_path self.path self.params with
    | err m => simp [ZcashWalletDb.get_wallet_birthday, hfp] at hE
    | ok db =>
      cases hop : B.get_wallet_birthday db with
      | ok v => simp [ZcashWalletDb.get_wallet_birthday, hfp, hop, RResult.map,
          RResult.mapErr] at hE
      | err s =>
        simp [ZcashWalletDb.get_wallet_birthday, hfp, hop, RResult.map,
          RResult.mapErr, cast_err] at hE
        simp [← hE, ZcashError.isMessage]
  · intro hE
    cases hfp : B.for_path self.path self.params with
    | err m => simp [ZcashWalletDb.get_account_birthday, hfp] at hE
    | ok db =>
      cases hop : B.get_account_birthday db account.id with
      | ok v => simp [ZcashWalletDb.get_account_birthday, hfp, hop, RResult.map,
          RResult.mapErr] at hE
      | err s =>
        simp [ZcashWalletDb.get_account_birthday, hfp, hop, RResult.map,
          RResult.mapErr, cast_err] at hE
        simp [← hE, ZcashError.isMessage]
  · intro hE
    cases hfp : B.for_path self.path self.params with
    | err m => simp [ZcashWalletDb.get_current_address, hfp] at hE
    | ok db =>
      cases hop : B.get_current_address db account.id with
      | ok v => simp [ZcashWalletDb.get_current_address, hfp, hop, RResult.map,
          RResult.mapErr] at hE
      | err s =>
        simp [ZcashWalletDb.get_current_address, hfp, hop, RResult.map,
          RResult.mapErr, cast_err] at hE
        simp [← hE, ZcashError.isMessage]
  · intro hE
    cases hfp : B.for_path self.path self.params with
    | err m => simp [ZcashWalletDb.get_unified_full_viewing_keys, hfp] at hE
    | ok db =>
      cases hop : B.get_unified_full_viewing_keys db with
      | ok v => simp [ZcashWalletDb.get_unified_full_viewing_keys, hfp, hop,
          RResult.map, RResult.mapErr] at hE
      | err s =>
        simp [ZcashWalletDb.get_unified_full_viewing_keys, hfp, hop, RResult.map,
          RResult.mapErr, cast_err] at hE
        simp [← hE, ZcashError.isMessage]
  · intro hE
    cases hfp : B.for_path self.path self.params with
    | err m => simp [ZcashWalletDb.get_account_for_ufvk, hfp] at hE
    | ok db =>
      cases hop : B.get_account_for_ufvk db zufvk.inner with
      | ok v => simp [ZcashWalletDb.get_account_for_ufvk, hfp, hop, RResult.map,
          RResult.mapErr] at hE
      | err s =>
        simp [ZcashWalletDb.get_account_for_ufvk, hfp, hop, RResult.map,
          RResult.mapErr, cast_err] at hE
        simp [← hE, ZcashError.isMessage]
  · intro hE
    cases hfp : B.for_path self.path self.params with
    | err m => simp [ZcashWalletDb.is_valid_account_extfvk, hfp] at hE
    | ok db =>
      cases hop : B.is_valid_account_extfvk db account.id extfvk.inner with
      | ok v => simp [ZcashWalletDb.is_valid_account_extfvk, hfp, hop,
          RResult.mapErr] at hE
      | err s =>
        simp [ZcashWalletDb.is_valid_account_extfvk, hfp, hop, RResult.mapErr,
          cast_err] at hE
        simp [← hE, ZcashError.isMessage]
  · intro hE
    cases hfp : B.for_path self.path self.params with
    | err m => simp [ZcashWalletDb.get_memo, hfp] at hE
    | ok db =>
      cases hop : B.get_memo db note.inner with
      | ok v =>
        cases v with
        | none => simp [ZcashWalletDb.get_memo, hfp, hop] at hE
        | some mm => simp [ZcashWalletDb.get_memo, hfp, hop] at hE
      | err s =>
        simp [ZcashWalletDb.get_memo, hfp, hop, cast_err] at hE
        simp [← hE, ZcashError.isMessage]
  · intro hE
    cases hfp : B.for_path self.path self.params with
    | err m => simp [ZcashWalletDb.get_transaction, hfp] at hE
    | ok db =>
      cases hop : B.get_transaction db txid.inner with
      | ok v => simp [ZcashWalletDb.get_transaction, hfp, hop, RResult.map,
          RResult.mapErr] at hE
      | err s =>
        simp [ZcashWalletDb.get_transaction, hfp, hop, RResult.map,
          RResult.mapErr, cast_err] at hE
        simp [← hE, ZcashError.isMessage]
  · intro hE
    cases hfp : B.for_path self.path self.params with
    | err m => simp [ZcashWalletDb.get_transparent_receivers, hfp] at hE
    | ok db =>
      cases hop : B.get_transparent_receivers db account.id with
      | ok v => simp [ZcashWalletDb.get_transparent_receivers, hfp, hop,
          RResult.map, RResult.mapErr] at hE
      | err s =>
        simp [ZcashWalletDb.get_transparent_receivers, hfp, hop, RResult.map,
          RResult.mapErr, cast_err] at hE
        simp [← hE, ZcashError.isMessage]
  · intro hE
    cases hfp : B.for_path self.path self.params with
    | err m => simp [ZcashWalletDb.get_unspent_transparent_outputs, hfp] at hE
    | ok db =>
      cases hop : B.get_unspent_transparent_outputs db zta.inner height.toHeight
          (zop.map (fun x => x.inner)) with
      | ok v => simp [ZcashWalletDb.get_unspent_transparent_outputs, hfp, hop,
          RResult.map, RResult.mapErr] at hE
      | err s =>
        simp [ZcashWalletDb.get_unspent_transparent_outputs, hfp, hop, RResult.map,
          RResult.mapErr, cast_err] at hE
        simp [← hE, ZcashError.isMessage]
  · intro hE
    cases hfp : B.for_path self.path self.params with
    | err m => simp [ZcashWalletDb.get_transparent_balances, hfp] at hE
    | ok db =>
      cases hop : B.get_transparent_balances db account.id maxh.toHeight with
      | ok v => simp [ZcashWalletDb.get_transparent_balances, hfp, hop,
          RResult.map, RResult.mapErr] at hE
      | err s =>
        simp [ZcashWalletDb.get_transparent_balances, hfp, hop, RResult.map,
          RResult.mapErr, cast_err] at hE
        simp [← hE, ZcashError.isMessage]
  · intro hE
    cases hfp : B.for_path self.path self.params with
    | err m => simp [ZcashWalletDb.get_next_available_address, hfp] at hE
    | ok db =>
      cases hop : B.get_next_available_address db account.id with
      | ok v => simp [ZcashWalletDb.get_next_available_address, hfp, hop,
          RResult.map, RResult.mapErr] at hE
      | err s =>
        simp [ZcashWalletDb.get_next_available_address, hfp, hop, RResult.map,
          RResult.mapErr, cast_err] at hE
        simp [← hE, ZcashError.isMessage]
  · intro hE
    cases hfp : B.for_path self.path self.params with
    | err m => simp [ZcashWalletDb.store_decrypted_tx, hfp] at hE
    | ok db =>
      cases hop : B.store_decrypted_tx db d_tx.inner with
      | ok v => simp [ZcashWalletDb.store_decrypted_tx, hfp, hop,
          RResult.mapErr] at hE
      | err s =>
        simp [ZcashWalletDb.store_decrypted_tx, hfp, hop, RResult.mapErr,
          cast_err] at hE
        simp [← hE, ZcashError.isMessage]
  · intro hE
    cases hfp : B.for_path self.path self.params with
    | err m => simp [ZcashWalletDb.put_received_transparent_utxo, hfp] at hE
    | ok db =>
      cases hop : B.put_received_transparent_utxo db output.inner with
      | ok v => simp [ZcashWalletDb.put_received_transparent_utxo, hfp, hop,
          RResult.map, RResult.mapErr] at hE
      | err s =>
        simp [ZcashWalletDb.put_received_transparent_utxo, hfp, hop, RResult.map,
          RResult.mapErr, cast_err] at hE
        simp [← hE, ZcashError.isMessage]
  · intro hcast hE
    cases hlb : L.from_bytes arr with
    | none =>
      simp [ZcashDiversifiableFullViewingKey.from_bytes, hcast, hlb] at hE
      simp [← hE]
    | some key =>
      simp [ZcashDiversifiableFullViewingKey.from_bytes, hcast, hlb] at hE

/-- C2 witness: on a backend whose operations report errors, chain_height
returns the message-carrying error value. -/
theorem c2_amended_errors_are_message_witness :
    (ZcashWalletDb.chain_height errAllBackend
      (ZcashWalletDb.mk ("db") ZcashConsensusParameters.MainNetwork)).1 =
      Outcome.returns (RResult.err (ZcashError.Message ("Err: boom"))) ∧
    ZcashError.isMessage (ZcashError.Message ("Err: boom")) = true :=
  ⟨by decide,
   (c2_amended_errors_are_message errAllBackend
      (ZcashWalletDb.mk ("db") ZcashConsensusParameters.MainNetwork)
      [] (ZcashBlockHeight.mk 4) 0 0 [] (ZcashAccountBirthday.mk (AccountBirthday.mk 0))
      0 0 0 [] fsErrBackend (ZcashFsBlockDb.mk 9) (ZcashBlockHeight.mk 4) []
      ZcashConsensusParameters.TestNetwork
      (ZcashWalletDb.mk ("db") ZcashConsensusParameters.MainNetwork)
      (ZcashTransaction.mk (Transaction.mk 0))
      (ZcashLocalTxProver.mk (LocalTxProver.mk 0))
      (ZcashMainFixedGreedyInputSelector.mk (MainFixedGreedyInputSelector.mk 0))
      (ZcashTestFixedGreedyInputSelector.mk (TestFixedGreedyInputSelector.mk 0))
      (ZcashMainZip317GreedyInputSelector.mk (MainZip317GreedyInputSelector.mk 0))
      (ZcashTestZip317GreedyInputSelector.mk (TestZip317GreedyInputSelector.mk 0))
      (ZcashUnifiedSpendingKey.mk (UnifiedSpendingKey.mk 0))
      (ZcashTransactionRequest.mk (TransactionRequest.mk 0))
      (ZcashOvkPolicy.mk (OvkPolicy.mk 0)) 5 [] (ZcashMemoBytes.mk (MemoBytes.mk 0))
      utils128 rejectAllKeysLib (List.replicate 128 0) (List.replicate 128 0)
      (ZcashTxId.mk (TxId.mk 0)) (ZcashAccountId.mk 1)
      (ZcashUnifiedFullViewingKey.mk (UnifiedFullViewingKey.mk 0))
      (ZcashExtendedFullViewingKey.mk (ExtendedFullViewingKey.mk 0))
      (ZcashNoteId.mk (NoteId.mk 0))
      (ZcashTransparentAddress.mk (TransparentAddress.mk 0)) []
      (ZcashBlockHeight.mk 9) (ZcashDecryptedTransaction.mk (DecryptedTransaction.mk 0))
      (ZcashWalletTransparentOutput.mk (WalletTransparentOutput.mk 0))
      (ZcashError.Message ("Err: boom")) (ZcashError.Message ("Err: boom"))
      (ZcashError.Message ("Err: boom")) (ZcashError.Message ("Err: boom"))
      (ZcashError.Message ("Err: boom")) (ZcashError.Message ("Err: boom"))
      (ZcashError.Message ("Err: boom")) (ZcashError.Message ("Err: boom"))
      (ZcashError.Message ("Err: boom")) (ZcashError.Message ("Err: boom"))
      (ZcashError.Message ("Err: boom")) (ZcashError.Message ("Err: boom"))
      (ZcashError.Message ("Err: boom")) (ZcashError.Message ("Err: boom"))
      (ZcashError.Message ("Err: boom")) (ZcashError.Message ("Err: boom"))
      (ZcashError.Message ("Err: boom")) (ZcashError.Message ("Err: boom"))
      (ZcashError.Message ("Err: boom")) (ZcashError.Message ("Err: boom"))
      (ZcashError.Message ("Err: boom")) ZcashError.Unknown
      (ZcashError.Message ("Err: boom")) (ZcashError.Message ("Err: boom"))
      (ZcashError.Message ("Err: boom")) (ZcashError.Message ("Err: boom"))
      (ZcashError.Message ("Err: boom")) (ZcashError.Message ("Err: boom"))
      (ZcashError.Message ("Err: boom")) (ZcashError.Message ("Err: boom"))
      (ZcashError.Message ("Err: boom")) (ZcashError.Message ("Err: boom"))
      (ZcashError.Message ("Err: boom")) (ZcashError.Message ("Err: boom"))
      (ZcashError.Message ("Err: boom")) (ZcashError.Message ("Err: boom"))
      (ZcashError.Message ("Err: boom")) (ZcashError.Message ("Err: boom"))
      (ZcashError.Message ("Err: boom")) (ZcashError.Message ("Err: boom"))
      (ZcashError.Message ("Err: boom")) (ZcashError.Message ("Err: boom"))
      (ZcashError.Message ("Err: boom"))).1 (by decide)⟩

/-- Helper: an effect of the arm of an enabled language occurs among the
effects of the whole packaging run. -/
theorem mem_prepareReleaseEffects {root version url tmp : String}
    {enabled : List String} (lang : SupportedLang) {e : ReleaseEffect}
    (hlang : lang ∈ supportedLangList) (hen : enabled.contains lang.kebab = true)
    (he : e ∈ langReleaseEffects root version url tmp lang) :
    e ∈ prepareReleaseEffects root version url tmp enabled := by
  unfold prepareReleaseEffects
  refine List.mem_append_right _ ?_
  refine List.mem_flatMap.mpr ⟨lang, ?_, he⟩
  exact List.mem_filter.mpr ⟨hlang, hen⟩

/-- C9: for each enabled target language, the packaging step substitutes
the supplied version string into that language's package template:
setup.py for Python, build.gradle.kts for Kotlin, zcash.gemspec for Ruby,
and the git commit message and tag for Swift. -/
theorem c9_release_version_substitution
    (root version url tmp : String) (enabled : List String)
    (hpy : enabled.contains ("python") = true)
    (hkt : enabled.contains ("kotlin") = true)
    (hsw : enabled.contains ("swift") = true)
    (hrb : enabled.contains ("ruby") = true) :
    prepare_release root version url tmp enabled true =
      RResult.ok (prepareReleaseEffects root version url tmp enabled) ∧
    ReleaseEffect.templateReplace
        (pjoin (pjoin (pjoin root ("packages")) ("python")) ("setup.py"))
        [(("version"), version)] ∈
      prepareReleaseEffects root version url tmp enabled ∧
    ReleaseEffect.templateReplace
        (pjoin (pjoin (pjoin (pjoin root ("packages")) ("kotlin")) ("lib"))
          ("build.gradle.kts"))
        [(("version"), version)] ∈
      prepareReleaseEffects root version url tmp enabled ∧
    ReleaseEffect.templateReplace
        (pjoin (pjoin (pjoin root ("packages")) ("ruby")) ("zcash.gemspec"))
        [(("version"), version)] ∈
      prepareReleaseEffects root version url tmp enabled ∧
    ReleaseEffect.runCmd ("git") [("commit"), ("-m"), ("Version " ++ version)]
        (some (pjoin (pjoin (pjoin root ("packages")) ("swift")) ("Zcash"))) ∈
      prepareReleaseEffects root version url tmp enabled ∧
    ReleaseEffect.runCmd ("git") [("tag"), version]
        (some (pjoin (pjoin (pjoin root ("packages")) ("swift")) ("Zcash"))) ∈
      prepareReleaseEffects root version url tmp enabled := by
  refine ⟨rfl, ?_, ?_, ?_, ?_, ?_⟩
  · exact mem_prepareReleaseEffects SupportedLang.python (by decide) hpy
      (by simp [langReleaseEffects])
  · exact mem_prepareReleaseEffects SupportedLang.kotlin (by decide) hkt
      (by simp [langReleaseEffects])
  · exact mem_prepareReleaseEffects SupportedLang.ruby (by decide) hrb
      (by simp [langReleaseEffects])
  · exact mem_prepareReleaseEffects SupportedLang.swift (by decide) hsw
      (by simp [langReleaseEffects])
  · exact mem_prepareReleaseEffects SupportedLang.swift (by decide) hsw
      (by simp [langReleaseEffects])

/-- C9 witness: concrete instance with all four languages enabled. -/
theorem c9_release_version_substitution_witness :
    ((["python", "kotlin", "swift", "ruby"] : List String).contains ("python") = true ∧
     (["python", "kotlin", "swift", "ruby"] : List String).contains ("kotlin") = true ∧
     (["python", "kotlin", "swift", "ruby"] : List String).contains ("swift") = true ∧
     (["python", "kotlin", "swift", "ruby"] : List String).contains ("ruby") = true) ∧
    ReleaseEffect.templateReplace
        (pjoin (pjoin (pjoin ("/r") ("packages")) ("python")) ("setup.py"))
        [(("version"), ("1.2.3"))] ∈
      prepareReleaseEffects ("/r") ("1.2.3") ("u") ("/t")
        ["python", "kotlin", "swift", "ruby"] :=
  ⟨⟨by decide, by decide, by decide, by decide⟩,
   (c9_release_version_substitution ("/r") ("1.2.3") ("u") ("/t")
      ["python", "kotlin", "swift", "ruby"]
      (by decide) (by decide) (by decide) (by decide)).2.1⟩

end UniffiZcash


